import Mathlib

/-!
# Certificate rotation planner (pkg/provisioningv2/rke2/planner/certificaterotation.go)

A shallow embedding of the certificate-rotation part of the RKE2 planner:

* `shouldRotate`, the gate deciding whether a rotation pass is pending;
* `rotateCertificatesPlan`, the per-node plan builder;
* `RotateCertificates`, the orchestrator (explicit state passing, with a trace
  of the calls it makes to its collaborators);
* `idempotentRotateScript`, the shell script shipped to the nodes, both as the
  text constant and as a step function on the node's file system.

Go pointers that the code dereferences are `Option`s here, and a dereference of
`nil` is an explicit panic outcome.  `int64` generations are `Int`s: the code
only compares and prints them, so no arithmetic can overflow.
-/

namespace Planner

/-! ## Data model -/

/-- The `rkev1.RotateCertificates` request: a generation and the services to scope it to. -/
structure RotateCertificates where
  Generation : Int
  Services : List String
deriving DecidableEq, Repr

/-- The fields of `rkev1.RKEControlPlaneSpec` the planner reads.  `RotateCertificates`
is a pointer in the source, hence an `Option`. -/
structure RKEControlPlaneSpec where
  KubernetesVersion : String
  RotateCertificates : Option RotateCertificates
deriving DecidableEq, Repr

/-- The fields of `rkev1.RKEControlPlaneStatus` the planner reads and writes. -/
structure RKEControlPlaneStatus where
  Initialized : Bool
  CertificateRotationGeneration : Int
deriving DecidableEq, Repr

/-- The `rkev1.RKEControlPlane` resource. -/
structure RKEControlPlane where
  Spec : RKEControlPlaneSpec
  Status : RKEControlPlaneStatus
deriving DecidableEq, Repr

/-- The machine a plan entry belongs to; only its name is read (`node.Machine.Name`). -/
structure Machine where
  Name : String
deriving DecidableEq, Repr

/-- A node of the cluster plan (`planEntry`): its machine and its metadata labels,
from which the role classification is derived outside this file. -/
structure planEntry where
  Machine : Machine
  Labels : List (String × String)
deriving DecidableEq, Repr

/-- A `plan.File`: a path on the node and the transport-encoded content, the two
fields this file sets; it leaves the others at their zero value. -/
structure File where
  Content : String
  Path : String
deriving DecidableEq, Repr

/-- A `plan.OneTimeInstruction`: the three fields this file sets; it leaves the
others at their zero value. -/
structure OneTimeInstruction where
  Name : String
  Command : String
  Args : List String
deriving DecidableEq, Repr

/-- A `plan.NodePlan`: files to write and instructions to run, both ordered. -/
structure NodePlan where
  Files : List File
  Instructions : List OneTimeInstruction
deriving DecidableEq, Repr

/-- The helpers of the planner and of package `rke2` that the source file calls but
does not define; they are parameters of the embedding. -/
structure Helpers where
  isOnlyWorker : planEntry → Bool
  GetRuntime : String → String
  GetRuntimeAgentUnit : String → String
  GetRuntimeServerUnit : String → String

/-! ## The gate -/

/-- The function `shouldRotate`: true if the cluster is ready and the generation is stale. -/
def shouldRotate (cp : RKEControlPlane) : Bool :=
  if cp.Status.Initialized != true then
    false
  else
    match cp.Spec.RotateCertificates with
    | none => false
    | some rotation => cp.Status.CertificateRotationGeneration != rotation.Generation

/-! ## The script constant -/

/-- The constant `idempotentRotateScript`, character for character. -/
def idempotentRotateScript : String :=
  "\n#!/bin/sh\n\ncurrentGeneration=\"\"\ntargetGeneration=$2\nruntime=$1\nshift\nshift\n\ndataRoot=\"/var/lib/rancher/$runtime/certificate_rotation\"\ngenerationFile=\"$dataRoot/generation\"\n\ncurrentGeneration=$(cat \"$generationFile\" || echo \"\")\n\nif [ \"$currentGeneration\" != \"$targetGeneration\" ]; then\n  $runtime certificate rotate  $@\nelse\n\techo \"certificates have already been rotated to the current generation.\"\nfi\n\nmkdir -p $dataRoot\necho $targetGeneration > \"$generationFile\"\n"

/-! ## Library functions the plan builder calls -/

/-- Go's `strconv.FormatInt(i, base)`: a minus sign for negative numbers, then the
magnitude in the given base, most significant digit first, lower-case letters for
digits above nine. -/
def FormatInt (i : Int) (base : Nat) : String :=
  if i < 0 then "-" ++ (Nat.toDigits base i.natAbs).asString
  else (Nat.toDigits base i.toNat).asString

/-- The value of a decimal digit character; used to read printed numbers back. -/
def digitValue (c : Char) : Nat :=
  c.toNat - 48

/-- The number a sequence of decimal digits stands for, most significant digit first;
used to read printed numbers back. -/
def decimalValue : List Char → Nat
  | [] => 0
  | c :: rest => digitValue c * 10 ^ rest.length + decimalValue rest

/-- The UTF-8 bytes of a string (Go's `[]byte(s)`), as numbers below 256. -/
def bytesOf (s : String) : List Nat :=
  (s.data.flatMap String.utf8EncodeChar).map UInt8.toNat

/-- The character for a six-bit value in the standard base64 alphabet. -/
def encodeStdChar (v : Nat) : Char :=
  if v < 26 then Char.ofNat (65 + v)
  else if v < 52 then Char.ofNat (97 + (v - 26))
  else if v < 62 then Char.ofNat (48 + (v - 52))
  else if v = 62 then '+'
  else '/'

/-- The six-bit value of a character of the standard base64 alphabet, if it is one. -/
def decodeStdChar (c : Char) : Option Nat :=
  let n := c.toNat
  if 65 ≤ n ∧ n ≤ 90 then some (n - 65)
  else if 97 ≤ n ∧ n ≤ 122 then some (n - 97 + 26)
  else if 48 ≤ n ∧ n ≤ 57 then some (n - 48 + 52)
  else if c = '+' then some 62
  else if c = '/' then some 63
  else none

/-- Padded base64 of a byte sequence, three bytes to four characters, `=` padding
on the last group. -/
def encodeStdChars : List Nat → List Char
  | [] => []
  | [a] => [encodeStdChar (a / 4), encodeStdChar (a % 4 * 16), '=', '=']
  | [a, b] =>
    [encodeStdChar (a / 4), encodeStdChar (a % 4 * 16 + b / 16), encodeStdChar (b % 16 * 4), '=']
  | a :: b :: c :: rest =>
    encodeStdChar (a / 4) :: encodeStdChar (a % 4 * 16 + b / 16) ::
      encodeStdChar (b % 16 * 4 + c / 64) :: encodeStdChar (c % 64) :: encodeStdChars rest

/-- Go's `base64.StdEncoding.EncodeToString`. -/
def EncodeToString (src : List Nat) : String :=
  String.mk (encodeStdChars src)

/-- Decoding of a group of four characters none of which is padding. -/
def decodeQuantum (c0 c1 c2 c3 : Char) : Option (List Nat) :=
  match decodeStdChar c0, decodeStdChar c1, decodeStdChar c2, decodeStdChar c3 with
  | some v0, some v1, some v2, some v3 =>
    some [v0 * 4 + v1 / 16, v1 % 16 * 16 + v2 / 4, v2 % 4 * 64 + v3]
  | _, _, _, _ => none

/-- Decoding of the last group of four characters, which may end in one or two `=`.
As in Go's non-strict standard encoding the unused low bits are not checked. -/
def decodeLastQuantum (c0 c1 c2 c3 : Char) : Option (List Nat) :=
  if c3 = '=' then
    if c2 = '=' then
      match decodeStdChar c0, decodeStdChar c1 with
      | some v0, some v1 => some [v0 * 4 + v1 / 16]
      | _, _ => none
    else
      match decodeStdChar c0, decodeStdChar c1, decodeStdChar c2 with
      | some v0, some v1, some v2 => some [v0 * 4 + v1 / 16, v1 % 16 * 16 + v2 / 4]
      | _, _, _ => none
  else decodeQuantum c0 c1 c2 c3

/-- Padded base64 decoding of a character sequence without line breaks: groups of
four characters, padding only in the last group, failure (`none`) on anything else. -/
def decodeStdChars : List Char → Option (List Nat)
  | [] => some []
  | [c0, c1, c2, c3] => decodeLastQuantum c0 c1 c2 c3
  | c0 :: c1 :: c2 :: c3 :: rest =>
    match decodeQuantum c0 c1 c2 c3, decodeStdChars rest with
    | some q, some r => some (q ++ r)
    | _, _ => none
  | _ => none

/-- Go's `base64.StdEncoding.DecodeString`: carriage returns and line feeds are
skipped, the rest is decoded as padded base64; `none` is the error result. -/
def DecodeString (s : String) : Option (List Nat) :=
  decodeStdChars (s.data.filter fun c => c != '\r' && c != '\n')

/-! ## The plan builder -/

/-- The loop `for _, service := range rotation.Services { args = append(args, "-s", service) }`. -/
def appendServices (args : List String) : List String → List String
  | [] => args
  | service :: rest => appendServices (args ++ ["-s", service]) rest

/-- The function `rotateCertificatesPlan`.  `rotation` is a pointer in the source; the
result is `none` when the code dereferences it while it is `nil`. -/
def rotateCertificatesPlan (h : Helpers) (controlPlane : RKEControlPlane)
    (rotation : Option RotateCertificates) (entry : planEntry) : Option NodePlan :=
  if h.isOnlyWorker entry then
    some {
      Files := []
      Instructions := [
        { Name := "restart"
          Command := "systemctl"
          Args := ["restart", h.GetRuntimeAgentUnit controlPlane.Spec.KubernetesVersion] }] }
  else
    let rotateScriptPath :=
      "/var/lib/rancher/" ++ h.GetRuntime controlPlane.Spec.KubernetesVersion ++
        "/certificate_rotation/bin/rotate.sh"
    match rotation with
    | none => none
    | some rotation =>
      let args := [
        "-xe",
        rotateScriptPath,
        h.GetRuntime controlPlane.Spec.KubernetesVersion,
        FormatInt rotation.Generation 10]
      let args := if rotation.Services.length > 0 then appendServices args rotation.Services else args
      some {
        Files := [
          { Content := EncodeToString (bytesOf idempotentRotateScript)
            Path := rotateScriptPath }]
        Instructions := [
          { Name := "rotate certificates"
            Command := "sh"
            Args := args },
          { Name := "restart"
            Command := "systemctl"
            Args := ["restart", h.GetRuntimeServerUnit controlPlane.Spec.KubernetesVersion] }] }

/-! ## The orchestrator -/

/-- A call made to one of the two external collaborators, with its arguments:
`assignAndCheckPlan(r.store, msg, node, plan, maxFailures, failureThreshold)` or
`r.rkeControlPlanes.UpdateStatus(controlPlane)`. -/
inductive Call where
  | assignAndCheckPlan (msg : String) (entry : planEntry) (nodePlan : NodePlan)
      (maxFailures failureThreshold : Int)
  | UpdateStatus (controlPlane : RKEControlPlane)
deriving DecidableEq, Repr

/-- The answers of the external collaborators during one pass.  `assignAndCheckPlan i`
is the error (`none` for `nil`) returned by the `i`-th submission of the pass, counted
from zero: the plan store is stateful and not part of this file, so its answers are an
arbitrary sequence.  `UpdateStatus cp` is the error returned by the status write. -/
structure Collaborators where
  assignAndCheckPlan : Nat → Option String
  UpdateStatus : RKEControlPlane → Option String

/-- How a call of `RotateCertificates` ends: it returns an error value (`none` for
`nil`) or it panics on a nil pointer. -/
inductive Outcome where
  | returned (err : Option String)
  | panicked
deriving DecidableEq, Repr

/-- What a call of `RotateCertificates` leaves behind: how it ended, the control
plane object the caller passed in (it is mutated through the pointer) and the calls
made to the collaborators, in order. -/
structure Pass where
  outcome : Outcome
  controlPlane : RKEControlPlane
  calls : List Call
deriving DecidableEq, Repr

/-- The loop of `RotateCertificates` from its `i`-th iteration on, over the nodes still
to visit.  The first component is `none` when the loop runs to its end and the way
the function ends when the loop is left early. -/
def rotateNodes (h : Helpers) (c : Collaborators) (controlPlane : RKEControlPlane) :
    Nat → List planEntry → List Call → Option Outcome × List Call
  | _, [], calls => (none, calls)
  | i, node :: rest, calls =>
    match rotateCertificatesPlan h controlPlane controlPlane.Spec.RotateCertificates node with
    | none => (some Outcome.panicked, calls)
    | some rotatePlan =>
      let calls := calls ++ [Call.assignAndCheckPlan
        ("[" ++ node.Machine.Name ++ "] certificate rotation") node rotatePlan 0 0]
      match c.assignAndCheckPlan i with
      | some err => (some (Outcome.returned (some err)), calls)
      | none => rotateNodes h c controlPlane (i + 1) rest calls

/-- The method `(r *certificateRotation) RotateCertificates`.  `clusterPlan` stands for
the sequence of nodes `collect(clusterPlan, anyRole)` yields, in its order. -/
def certificateRotation.RotateCertificates (h : Helpers) (c : Collaborators) (controlPlane : RKEControlPlane)
    (clusterPlan : List planEntry) : Pass :=
  if !shouldRotate controlPlane then
    { outcome := Outcome.returned none, controlPlane := controlPlane, calls := [] }
  else
    match rotateNodes h c controlPlane 0 clusterPlan [] with
    | (some out, calls) => { outcome := out, controlPlane := controlPlane, calls := calls }
    | (none, calls) =>
      match controlPlane.Spec.RotateCertificates with
      | none => { outcome := Outcome.panicked, controlPlane := controlPlane, calls := calls }
      | some rotation =>
        let controlPlane : RKEControlPlane :=
          { controlPlane with
            Status := { controlPlane.Status with
              CertificateRotationGeneration := rotation.Generation } }
        { outcome := Outcome.returned (c.UpdateStatus controlPlane)
          controlPlane := controlPlane
          calls := calls ++ [Call.UpdateStatus controlPlane] }

/-- The submissions among the calls of a pass. -/
def submissions (calls : List Call) : List Call :=
  calls.filter fun
    | Call.assignAndCheckPlan _ _ _ _ _ => true
    | Call.UpdateStatus _ => false

/-- The status writes among the calls of a pass. -/
def statusWrites (calls : List Call) : List RKEControlPlane :=
  calls.filterMap fun
    | Call.assignAndCheckPlan _ _ _ _ _ => none
    | Call.UpdateStatus cp => some cp

/-- The nodes the submissions of a pass were made for, in order. -/
def submittedNodes (calls : List Call) : List planEntry :=
  calls.filterMap fun
    | Call.assignAndCheckPlan _ entry _ _ _ => some entry
    | Call.UpdateStatus _ => none

/-- The submission the loop of `RotateCertificates` makes for a node, as a list of
calls: the label, the node, its plan and the two tolerances; no call when the plan
builder panics. -/
def submissionFor (h : Helpers) (controlPlane : RKEControlPlane) (node : planEntry) : List Call :=
  match rotateCertificatesPlan h controlPlane controlPlane.Spec.RotateCertificates node with
  | some rotatePlan =>
    [Call.assignAndCheckPlan ("[" ++ node.Machine.Name ++ "] certificate rotation")
      node rotatePlan 0 0]
  | none => []

/-! ## The script on the node

`idempotentRotateScript` is shell text; what follows is its meaning, statement by
statement, on the part of the node it touches: the files it reads and writes and the
commands it starts.  Expansions the script leaves unquoted are split into fields and
the fields undergo pathname expansion, against the files the node has at that moment;
the options of `echo` and failures of `mkdir` and of the redirection are not
modelled. -/

/-- The files of the node, by path; `none` is a missing file. -/
abbrev FileSystem := String → Option String

/-- The characters the shell splits fields on (the default `IFS`). -/
def isIFS (c : Char) : Bool :=
  c == ' ' || c == '\t' || c == '\n'

/-- Field splitting of an unquoted expansion: maximal runs of characters outside `IFS`. -/
def splitFields (s : String) : List String :=
  ((s.data.splitOnP isIFS).filter fun w => !w.isEmpty).map String.mk

/-- Pathname expansion on the node, which depends on the files of the shell's working
directory and not on the source: `pathnames line pattern` is the sorted list of the
existing path names that `pattern` matches at the moment line `line` of the source
file is expanded, empty when there is none. -/
abbrev Pathnames := Nat → String → List String

/-- The characters that make a field a pattern for pathname expansion.  The backslash
is counted among them: shells differ on what they do with it. -/
def isPatternChar (c : Char) : Bool :=
  c == '*' || c == '?' || c == '[' || c == '\\'

/-- Pathname expansion of one field: a field without pattern character stays as it is;
a pattern is replaced by the path names it matches and stays as it is when it
matches none. -/
def expandPathname (matching : String → List String) (field : String) : List String :=
  if field.data.any isPatternChar then
    if (matching field).isEmpty then [field] else matching field
  else [field]

/-- An unquoted expansion such as `$@` or `$runtime`: field splitting, then pathname
expansion of every field. -/
def expandUnquoted (matching : String → List String) (s : String) : List String :=
  (splitFields s).flatMap (expandPathname matching)

/-- What `echo` prints for its arguments: the words separated by blanks, then a newline. -/
def echoOutput (words : List String) : String :=
  " ".intercalate words ++ "\n"

/-- A command substitution `$(...)` yields the output without its trailing newlines. -/
def commandSubstitution (output : String) : String :=
  String.mk (output.data.rdropWhile fun c => c == '\n')

/-- The value of `$dataRoot` for a runtime. -/
def dataRoot (runtime : String) : String :=
  "/var/lib/rancher/" ++ runtime ++ "/certificate_rotation"

/-- The value of `$generationFile` for a runtime: the marker. -/
def generationFile (runtime : String) : String :=
  dataRoot runtime ++ "/generation"

/-- The value of `$currentGeneration` after `$(cat "$generationFile" || echo "")`: the
content of the marker without its trailing newlines, and what `echo ""` prints,
without its newline, when the marker cannot be read. -/
def currentGeneration (fs : FileSystem) (runtime : String) : String :=
  match fs (generationFile runtime) with
  | some content => commandSubstitution content
  | none => commandSubstitution (echoOutput [""])

/-- What a run of the script leaves behind: the files, the command lines of the
rotation commands it started, in order, and whether it ended with status zero. -/
structure ScriptRun where
  fs : FileSystem
  rotations : List (List String)
  succeeded : Bool

/-- One run of `idempotentRotateScript` with the given positional parameters.
`pathnames` is the pathname expansion of the node during the run, `errexit` is the
shell's `-e` option, `rotateOk` tells whether the rotation command, if this run starts
it, ends with status zero.  The rotation command is line 77 of the source file, the
write of the marker line 83.  With fewer than two parameters the second `shift` fails
and the shell gives up before anything else happens. -/
def runRotateScript (pathnames : Pathnames) (errexit rotateOk : Bool) (fs : FileSystem) :
    List String → ScriptRun
  | runtime :: targetGeneration :: rest =>
    let marked : FileSystem :=
      Function.update fs (generationFile runtime)
        (some (echoOutput (expandUnquoted (pathnames 83) targetGeneration)))
    if currentGeneration fs runtime != targetGeneration then
      let command := expandUnquoted (pathnames 77) runtime ++ ["certificate", "rotate"] ++
        rest.flatMap (expandUnquoted (pathnames 77))
      if errexit && !rotateOk then
        { fs := fs, rotations := [command], succeeded := false }
      else
        { fs := marked, rotations := [command], succeeded := true }
    else
      { fs := marked, rotations := [], succeeded := true }
  | _ => { fs := fs, rotations := [], succeeded := false }

/-- The instruction `sh <options> <script> <parameters...>` on a node where the file at
`<script>` holds `idempotentRotateScript`: the option word is a dash followed by
option letters, `e` among them switches `errexit` on.  `none` when the arguments do
not have this shape. -/
def runShInstruction (pathnames : Pathnames) (rotateOk : Bool) (fs : FileSystem) :
    List String → Option ScriptRun
  | options :: _script :: positional =>
    match options.data with
    | '-' :: letters =>
      some (runRotateScript pathnames (letters.contains 'e') rotateOk fs positional)
    | _ => none
  | _ => none

/-! ## Concrete inputs used by the witnesses -/

/-- Helpers of an RKE2 cluster: a node is worker-only when it carries no label. -/
def rke2Helpers : Helpers where
  isOnlyWorker := fun entry => entry.Labels.isEmpty
  GetRuntime := fun _ => "rke2"
  GetRuntimeAgentUnit := fun _ => "rke2-agent"
  GetRuntimeServerUnit := fun _ => "rke2-server"

/-- An initialized control plane at status generation 3 asked to rotate to generation 4. -/
def staleControlPlane : RKEControlPlane where
  Spec := { KubernetesVersion := "v1.21.4+rke2r2", RotateCertificates := some ⟨4, []⟩ }
  Status := { Initialized := true, CertificateRotationGeneration := 3 }

/-- A control plane asked to rotate two services at generation 7. -/
def scopedControlPlane : RKEControlPlane where
  Spec := { KubernetesVersion := "v1.21.4+rke2r2",
            RotateCertificates := some ⟨7, ["etcd", "kube-apiserver"]⟩ }
  Status := { Initialized := true, CertificateRotationGeneration := 6 }

/-- A control-plane node. -/
def serverNode : planEntry := ⟨⟨"cp-1"⟩, [("rke.cattle.io/control-plane-role", "true")]⟩

/-- A worker-only node. -/
def workerNode : planEntry := ⟨⟨"worker-1"⟩, []⟩

/-- A cluster of three nodes: a control-plane node, an etcd node and a worker. -/
def threeNodes : List planEntry :=
  [serverNode, ⟨⟨"etcd-1"⟩, [("rke.cattle.io/etcd-role", "true")]⟩, workerNode]

/-- Collaborators of a pass in which the submission for the second node (position 1)
fails and every other call succeeds. -/
def secondNodeFails : Collaborators where
  assignAndCheckPlan := fun i => if i = 1 then some "plan not applied" else none
  UpdateStatus := fun _ => none

/-- Collaborators of a pass in which every submission succeeds and the status write
fails. -/
def statusWriteFails : Collaborators where
  assignAndCheckPlan := fun _ => none
  UpdateStatus := fun _ => some "conflict"

/-- A node on which no marker has been written yet. -/
def noFiles : FileSystem := fun _ => none

/-- A node on which no pattern matches a path name. -/
def noMatches : Pathnames := fun _ _ => []

/-- A node on which the shell runs in a directory holding `a.txt` and `b.txt`. -/
def twoTextFiles : Pathnames := fun _ pattern =>
  if pattern = "*" then ["a.txt", "b.txt"] else []

/-- The arguments of the script invocation in the plan of a control-plane node of an
RKE2 cluster for generation 4 without services. -/
def rotateArgs : List String :=
  ["-xe", "/var/lib/rancher/rke2/certificate_rotation/bin/rotate.sh", "rke2", "4"]

/-- An initialized control plane whose status generation equals its spec generation. -/
def currentControlPlane : RKEControlPlane where
  Spec := { KubernetesVersion := "v1.21.4+rke2r2", RotateCertificates := some ⟨4, []⟩ }
  Status := { Initialized := true, CertificateRotationGeneration := 4 }

/-- Collaborators of a pass in which every submission and the status write succeed. -/
def allSucceed : Collaborators where
  assignAndCheckPlan := fun _ => none
  UpdateStatus := fun _ => none

/-- The stale control plane after its rotation has been committed: status generation 4. -/
def committedControlPlane : RKEControlPlane where
  Spec := { KubernetesVersion := "v1.21.4+rke2r2", RotateCertificates := some ⟨4, []⟩ }
  Status := { Initialized := true, CertificateRotationGeneration := 4 }

/-- An initialized control plane asked to rotate, at generation 4, one service whose
name contains a blank. -/
def blankServiceControlPlane : RKEControlPlane where
  Spec := { KubernetesVersion := "v1.21.4+rke2r2",
            RotateCertificates := some ⟨4, ["kube apiserver"]⟩ }
  Status := { Initialized := true, CertificateRotationGeneration := 3 }

/-- An initialized control plane asked to rotate, at generation 4, a service named by
an asterisk. -/
def starServiceControlPlane : RKEControlPlane where
  Spec := { KubernetesVersion := "v1.21.4+rke2r2", RotateCertificates := some ⟨4, ["*"]⟩ }
  Status := { Initialized := true, CertificateRotationGeneration := 3 }

/-- An initialized control plane without a rotation spec. -/
def unrequestedControlPlane : RKEControlPlane where
  Spec := { KubernetesVersion := "v1.21.4+rke2r2", RotateCertificates := none }
  Status := { Initialized := true, CertificateRotationGeneration := 3 }

/-! ## The gate -/

/-- C1: `shouldRotate cp` is true exactly when the control plane is initialized, a
rotation spec is present and the status generation differs from the spec generation.
In particular it is false when `Initialized` is false whatever the spec is, false when
the spec is absent, false when the generations are equal, true for a spec generation
below the status generation, and true for status 3 and spec 4. -/
theorem shouldRotate_iff (cp : RKEControlPlane) :
    (shouldRotate cp = true ↔
      cp.Status.Initialized = true ∧
        ∃ rotation, cp.Spec.RotateCertificates = some rotation ∧
          cp.Status.CertificateRotationGeneration ≠ rotation.Generation) ∧
    (cp.Status.Initialized = false → shouldRotate cp = false) ∧
    (cp.Spec.RotateCertificates = none → shouldRotate cp = false) ∧
    (∀ rotation, cp.Spec.RotateCertificates = some rotation →
      cp.Status.CertificateRotationGeneration = rotation.Generation →
        shouldRotate cp = false) ∧
    (∀ rotation, cp.Status.Initialized = true → cp.Spec.RotateCertificates = some rotation →
      rotation.Generation < cp.Status.CertificateRotationGeneration →
        shouldRotate cp = true) ∧
    (∀ version services,
      shouldRotate ⟨⟨version, some ⟨4, services⟩⟩, ⟨true, 3⟩⟩ = true) := by
  obtain ⟨⟨version, spec⟩, ⟨initialized, generation⟩⟩ := cp
  refine ⟨?_, ?_, ?_, ?_, ?_, ?_⟩
  · cases initialized <;> cases spec <;> simp [shouldRotate]
  · intro hinit
    simp only at hinit
    simp [shouldRotate, hinit]
  · intro hspec
    simp only at hspec
    cases initialized <;> simp [shouldRotate, hspec]
  · intro rotation hspec hgen
    simp only at hspec hgen
    cases initialized <;> simp [shouldRotate, hspec, hgen]
  · intro rotation hinit hspec hlt
    simp only at hinit hspec hlt
    simp [shouldRotate, hinit, hspec]
    omega
  · intro version services
    simp [shouldRotate]

/-- The shouldRotate equivalence at the stale control plane (status 3, spec 4): the
gate is open there. -/
theorem shouldRotate_iff_witness :
    shouldRotate staleControlPlane = true ∧
      staleControlPlane.Status.Initialized = true ∧
        ∃ rotation, staleControlPlane.Spec.RotateCertificates = some rotation ∧
          staleControlPlane.Status.CertificateRotationGeneration ≠ rotation.Generation :=
  ⟨by decide, (shouldRotate_iff staleControlPlane).1.1 (by decide)⟩

/-! ## The plan builder -/

/-- The loop over the services appends a `-s` flag and the service, for each service in order. -/
theorem appendServices_eq (args services : List String) :
    appendServices args services = args ++ services.flatMap fun service => ["-s", service] := by
  induction services generalizing args with
  | nil => simp [appendServices]
  | cons service rest ih => simp [appendServices, ih]

/-- The arguments of the script invocation, in closed form. -/
theorem rotateCertificatesPlan_server (h : Helpers) (controlPlane : RKEControlPlane)
    (rotation : RotateCertificates) (entry : planEntry) (hw : h.isOnlyWorker entry = false) :
    rotateCertificatesPlan h controlPlane (some rotation) entry = some {
      Files := [
        { Content := EncodeToString (bytesOf idempotentRotateScript)
          Path := "/var/lib/rancher/" ++ h.GetRuntime controlPlane.Spec.KubernetesVersion ++
            "/certificate_rotation/bin/rotate.sh" }]
      Instructions := [
        { Name := "rotate certificates"
          Command := "sh"
          Args := ["-xe",
            "/var/lib/rancher/" ++ h.GetRuntime controlPlane.Spec.KubernetesVersion ++
              "/certificate_rotation/bin/rotate.sh",
            h.GetRuntime controlPlane.Spec.KubernetesVersion,
            FormatInt rotation.Generation 10] ++
              rotation.Services.flatMap fun service => ["-s", service] },
        { Name := "restart"
          Command := "systemctl"
          Args := ["restart", h.GetRuntimeServerUnit controlPlane.Spec.KubernetesVersion] }] } := by
  unfold rotateCertificatesPlan
  simp only [hw, Bool.false_eq_true, if_false]
  by_cases hs : rotation.Services.length > 0
  · simp [hs, appendServices_eq]
  · have : rotation.Services = [] := by
      cases hsv : rotation.Services with
      | nil => rfl
      | cons a l => simp [hsv] at hs
    simp [this]

/-- C2: for a node that is not worker-only and any rotation spec, the plan has exactly
one file and exactly two instructions, in this order: the script invocation with
command `sh`, then `systemctl restart <server unit>`.  For generation 7 and services
`etcd`, `kube-apiserver` the arguments of the first end in `-s etcd -s kube-apiserver`
and contain `"7"`. -/
theorem rotateCertificatesPlan_server_shape (h : Helpers) (controlPlane : RKEControlPlane)
    (rotation : RotateCertificates) (entry : planEntry) (hw : h.isOnlyWorker entry = false) :
    ∃ nodePlan file first second,
      rotateCertificatesPlan h controlPlane (some rotation) entry = some nodePlan ∧
      nodePlan.Files = [file] ∧ nodePlan.Files.length = 1 ∧
      nodePlan.Instructions = [first, second] ∧ nodePlan.Instructions.length = 2 ∧
      first.Command = "sh" ∧
      second.Command = "systemctl" ∧
      second.Args = ["restart", h.GetRuntimeServerUnit controlPlane.Spec.KubernetesVersion] ∧
      (rotation = ⟨7, ["etcd", "kube-apiserver"]⟩ →
        (∃ front, first.Args = front ++ ["-s", "etcd", "-s", "kube-apiserver"]) ∧
          "7" ∈ first.Args) := by
  refine ⟨_, _, _, _, rotateCertificatesPlan_server h controlPlane rotation entry hw,
    rfl, rfl, rfl, rfl, rfl, rfl, rfl, ?_⟩
  rintro rfl
  refine ⟨⟨_, rfl⟩, ?_⟩
  have h7 : FormatInt 7 10 = "7" := by decide
  simp [h7]

/-- The plan for the control-plane node of an RKE2 cluster asked for generation 7 of
`etcd` and `kube-apiserver`: one file, the script invocation with exactly these
arguments, then the restart of `rke2-server`. -/
theorem rotateCertificatesPlan_server_shape_witness :
    rke2Helpers.isOnlyWorker serverNode = false ∧
    (∃ nodePlan file first second,
      rotateCertificatesPlan rke2Helpers scopedControlPlane
        (some ⟨7, ["etcd", "kube-apiserver"]⟩) serverNode = some nodePlan ∧
      nodePlan.Files = [file] ∧ nodePlan.Files.length = 1 ∧
      nodePlan.Instructions = [first, second] ∧ nodePlan.Instructions.length = 2 ∧
      first.Command = "sh" ∧
      second.Command = "systemctl" ∧
      second.Args = ["restart", "rke2-server"] ∧
      ((⟨7, ["etcd", "kube-apiserver"]⟩ : RotateCertificates) = ⟨7, ["etcd", "kube-apiserver"]⟩ →
        (∃ front, first.Args = front ++ ["-s", "etcd", "-s", "kube-apiserver"]) ∧
          "7" ∈ first.Args)) ∧
    (rotateCertificatesPlan rke2Helpers scopedControlPlane
        (some ⟨7, ["etcd", "kube-apiserver"]⟩) serverNode).map
      (fun nodePlan => nodePlan.Instructions.map fun i => i.Args) =
      some [["-xe", "/var/lib/rancher/rke2/certificate_rotation/bin/rotate.sh", "rke2", "7",
              "-s", "etcd", "-s", "kube-apiserver"],
            ["restart", "rke2-server"]] :=
  ⟨by decide,
   rotateCertificatesPlan_server_shape rke2Helpers scopedControlPlane
     ⟨7, ["etcd", "kube-apiserver"]⟩ serverNode (by decide),
   by decide⟩

/-- In the flag list every service sits right behind its own `-s`. -/
theorem serviceFlags_getElem? (services : List String) (i : Nat) (hi : i < services.length) :
    (services.flatMap fun service => ["-s", service])[2 * i]? = some "-s" ∧
    (services.flatMap fun service => ["-s", service])[2 * i + 1]? = services[i]? := by
  induction services generalizing i with
  | nil => simp at hi
  | cons service rest ih =>
    cases i with
    | zero => simp
    | succ j =>
      have hj : j < rest.length := by simpa using hi
      have e1 : 2 * (j + 1) = 2 * j + 1 + 1 := by ring
      have e2 : 2 * (j + 1) + 1 = 2 * j + 1 + 1 + 1 := by ring
      obtain ⟨h1, h2⟩ := ih j hj
      constructor
      · rw [e1]
        simpa using h1
      · rw [e2]
        simpa using h2

/-- The flag list has two entries per service. -/
theorem serviceFlags_length (services : List String) :
    (services.flatMap fun service => ["-s", service]).length = 2 * services.length := by
  induction services with
  | nil => rfl
  | cons service rest ih =>
    simp only [List.flatMap_cons, List.length_append, List.length_cons, List.length_nil, ih]
    ring

/-- C3: for a node that is not worker-only, the arguments of the first instruction are
`-xe`, the script path, the runtime name and the generation in decimal, followed by
`-s` and the service for every service in input order: `4 + 2 * n` arguments, `-s` at
position `4 + 2 * i` and the `i`-th service right after it; without services the
arguments are just the four leading ones. -/
theorem rotateCertificatesPlan_args (h : Helpers) (controlPlane : RKEControlPlane)
    (rotation : RotateCertificates) (entry : planEntry) (hw : h.isOnlyWorker entry = false) :
    ∃ nodePlan first rest,
      rotateCertificatesPlan h controlPlane (some rotation) entry = some nodePlan ∧
      nodePlan.Instructions = first :: rest ∧
      first.Args = ["-xe",
        "/var/lib/rancher/" ++ h.GetRuntime controlPlane.Spec.KubernetesVersion ++
          "/certificate_rotation/bin/rotate.sh",
        h.GetRuntime controlPlane.Spec.KubernetesVersion,
        FormatInt rotation.Generation 10] ++
          rotation.Services.flatMap (fun service => ["-s", service]) ∧
      first.Args.length = 4 + 2 * rotation.Services.length ∧
      (∀ i, i < rotation.Services.length →
        first.Args[4 + 2 * i]? = some "-s" ∧
        first.Args[4 + 2 * i + 1]? = rotation.Services[i]?) ∧
      (rotation.Services = [] → first.Args = ["-xe",
        "/var/lib/rancher/" ++ h.GetRuntime controlPlane.Spec.KubernetesVersion ++
          "/certificate_rotation/bin/rotate.sh",
        h.GetRuntime controlPlane.Spec.KubernetesVersion,
        FormatInt rotation.Generation 10] ∧ "-s" ∉ first.Args.drop 4) := by
  refine ⟨_, _, _, rotateCertificatesPlan_server h controlPlane rotation entry hw,
    rfl, rfl, ?_, ?_, ?_⟩
  · simp only [List.length_append, serviceFlags_length]
    rfl
  · intro i hi
    obtain ⟨h1, h2⟩ := serviceFlags_getElem? rotation.Services i hi
    constructor
    · rw [List.getElem?_append_right (by simp)]
      simpa using h1
    · rw [List.getElem?_append_right (by simp; omega)]
      have e : 4 + 2 * i + 1 - [
          "-xe",
          "/var/lib/rancher/" ++ h.GetRuntime controlPlane.Spec.KubernetesVersion ++
            "/certificate_rotation/bin/rotate.sh",
          h.GetRuntime controlPlane.Spec.KubernetesVersion,
          FormatInt rotation.Generation 10].length = 2 * i + 1 := by
        simp only [List.length_cons, List.length_nil]
        omega
      rw [e]
      exact h2
  · intro hs
    simp [hs]

/-- The arguments of the script invocation for generation 7 of `etcd` and
`kube-apiserver` on the control-plane node of an RKE2 cluster: eight of them. -/
theorem rotateCertificatesPlan_args_witness :
    rke2Helpers.isOnlyWorker serverNode = false ∧
    ∃ nodePlan first rest,
      rotateCertificatesPlan rke2Helpers scopedControlPlane
        (some ⟨7, ["etcd", "kube-apiserver"]⟩) serverNode = some nodePlan ∧
      nodePlan.Instructions = first :: rest ∧
      first.Args = ["-xe", "/var/lib/rancher/rke2/certificate_rotation/bin/rotate.sh", "rke2",
        "7", "-s", "etcd", "-s", "kube-apiserver"] ∧
      first.Args.length = 8 ∧
      first.Args[4 + 2 * 1]? = some "-s" ∧ first.Args[4 + 2 * 1 + 1]? = some "kube-apiserver" := by
  refine ⟨by decide, ?_⟩
  obtain ⟨nodePlan, first, rest, h1, h2, h3, h4, h5, -⟩ :=
    rotateCertificatesPlan_args rke2Helpers scopedControlPlane
      ⟨7, ["etcd", "kube-apiserver"]⟩ serverNode (by decide)
  refine ⟨nodePlan, first, rest, h1, h2, ?_, ?_, (h5 1 (by decide)).1, (h5 1 (by decide)).2⟩
  · rw [h3]
    decide
  · rw [h4]
    rfl

/-- The plan for a worker-only node, in closed form; the rotation spec is not read. -/
theorem rotateCertificatesPlan_workerOnly (h : Helpers) (controlPlane : RKEControlPlane)
    (rotation : Option RotateCertificates) (entry : planEntry)
    (hw : h.isOnlyWorker entry = true) :
    rotateCertificatesPlan h controlPlane rotation entry = some {
      Files := []
      Instructions := [
        { Name := "restart"
          Command := "systemctl"
          Args := ["restart", h.GetRuntimeAgentUnit controlPlane.Spec.KubernetesVersion] }] } := by
  unfold rotateCertificatesPlan
  simp only [hw, if_true]

/-- C4: for a worker-only node, whatever the control plane and the rotation spec are,
the plan has no file and exactly one instruction, `systemctl restart <agent unit>`. -/
theorem rotateCertificatesPlan_worker (h : Helpers) (controlPlane : RKEControlPlane)
    (rotation : RotateCertificates) (entry : planEntry) (hw : h.isOnlyWorker entry = true) :
    ∃ nodePlan instruction,
      rotateCertificatesPlan h controlPlane (some rotation) entry = some nodePlan ∧
      nodePlan.Files = [] ∧ nodePlan.Files.length = 0 ∧
      nodePlan.Instructions = [instruction] ∧ nodePlan.Instructions.length = 1 ∧
      instruction.Command = "systemctl" ∧
      instruction.Args = ["restart", h.GetRuntimeAgentUnit controlPlane.Spec.KubernetesVersion] := by
  exact ⟨_, _, rotateCertificatesPlan_workerOnly h controlPlane (some rotation) entry hw,
    rfl, rfl, rfl, rfl, rfl, rfl⟩

/-- The plan for the worker of an RKE2 cluster: no file, one instruction, the restart
of `rke2-agent`. -/
theorem rotateCertificatesPlan_worker_witness :
    rke2Helpers.isOnlyWorker workerNode = true ∧
    rotateCertificatesPlan rke2Helpers scopedControlPlane
        (some ⟨7, ["etcd", "kube-apiserver"]⟩) workerNode =
      some ⟨[], [⟨"restart", "systemctl", ["restart", "rke2-agent"]⟩]⟩ := by
  refine ⟨by decide, ?_⟩
  obtain ⟨nodePlan, instruction, h1, -, -, -, -, -, -⟩ :=
    rotateCertificatesPlan_worker rke2Helpers scopedControlPlane
      ⟨7, ["etcd", "kube-apiserver"]⟩ workerNode (by decide)
  rw [h1]
  exact h1.symm.trans (by decide)

/-! ## The orchestrator -/

/-- With a rotation spec at hand the plan builder returns a plan for every node. -/
theorem rotateCertificatesPlan_some (h : Helpers) (controlPlane : RKEControlPlane)
    (rotation : RotateCertificates) (entry : planEntry) :
    ∃ nodePlan, rotateCertificatesPlan h controlPlane (some rotation) entry = some nodePlan := by
  cases hw : h.isOnlyWorker entry with
  | false => exact ⟨_, rotateCertificatesPlan_server h controlPlane rotation entry hw⟩
  | true =>
    exact ⟨_, rotateCertificatesPlan_workerOnly h controlPlane (some rotation) entry hw⟩

/-- An open gate means the rotation spec is present. -/
theorem shouldRotate_spec (cp : RKEControlPlane) (hgate : shouldRotate cp = true) :
    ∃ rotation, cp.Spec.RotateCertificates = some rotation := by
  cases hspec : cp.Spec.RotateCertificates with
  | some rotation => exact ⟨rotation, rfl⟩
  | none =>
    cases hi : cp.Status.Initialized <;> simp [shouldRotate, hspec, hi] at hgate

/-- The loop stops at the first submission that fails: it returns that error after
the submissions for the nodes up to the failing one. -/
theorem rotateNodes_fail (h : Helpers) (c : Collaborators) (controlPlane : RKEControlPlane)
    (rotation : RotateCertificates) (hspec : controlPlane.Spec.RotateCertificates = some rotation)
    (nodes : List planEntry) (i : Nat) (calls : List Call) (k : Nat) (e : String)
    (hk : k < nodes.length) (hok : ∀ j, j < k → c.assignAndCheckPlan (i + j) = none)
    (hfail : c.assignAndCheckPlan (i + k) = some e) :
    rotateNodes h c controlPlane i nodes calls =
      (some (Outcome.returned (some e)),
        calls ++ (nodes.take (k + 1)).flatMap (submissionFor h controlPlane)) := by
  induction nodes generalizing i calls k with
  | nil => simp at hk
  | cons node rest ih =>
    obtain ⟨nodePlan, hp⟩ := rotateCertificatesPlan_some h controlPlane rotation node
    rw [← hspec] at hp
    cases k with
    | zero =>
      have hfail0 : c.assignAndCheckPlan i = some e := by simpa using hfail
      simp [rotateNodes, submissionFor, hp, hfail0]
    | succ k =>
      have h0 : c.assignAndCheckPlan i = none := by simpa using hok 0 (Nat.succ_pos k)
      have hk1 : k < rest.length := by simpa using hk
      have hok1 : ∀ j, j < k → c.assignAndCheckPlan (i + 1 + j) = none := by
        intro j hj
        have := hok (j + 1) (Nat.succ_lt_succ hj)
        rwa [show i + (j + 1) = i + 1 + j by omega] at this
      have hfail1 : c.assignAndCheckPlan (i + 1 + k) = some e := by
        rwa [show i + (k + 1) = i + 1 + k by omega] at hfail
      simp only [rotateNodes, hp, h0]
      rw [ih (i + 1) _ k hk1 hok1 hfail1]
      simp [submissionFor, hp]

/-- When no submission fails the loop runs to its end, after one submission per node. -/
theorem rotateNodes_ok (h : Helpers) (c : Collaborators) (controlPlane : RKEControlPlane)
    (rotation : RotateCertificates) (hspec : controlPlane.Spec.RotateCertificates = some rotation)
    (nodes : List planEntry) (i : Nat) (calls : List Call)
    (hok : ∀ j, j < nodes.length → c.assignAndCheckPlan (i + j) = none) :
    rotateNodes h c controlPlane i nodes calls =
      (none, calls ++ nodes.flatMap (submissionFor h controlPlane)) := by
  induction nodes generalizing i calls with
  | nil => simp [rotateNodes]
  | cons node rest ih =>
    obtain ⟨nodePlan, hp⟩ := rotateCertificatesPlan_some h controlPlane rotation node
    rw [← hspec] at hp
    have h0 : c.assignAndCheckPlan i = none := by simpa using hok 0 (by simp)
    have hok1 : ∀ j, j < rest.length → c.assignAndCheckPlan (i + 1 + j) = none := by
      intro j hj
      have := hok (j + 1) (by simpa using hj)
      rwa [show i + (j + 1) = i + 1 + j by omega] at this
    simp only [rotateNodes, hp, h0]
    rw [ih (i + 1) _ hok1]
    simp [submissionFor, hp]

/-- The submissions for a list of nodes are submissions for exactly these nodes. -/
theorem submittedNodes_submissionFor (h : Helpers) (controlPlane : RKEControlPlane)
    (rotation : RotateCertificates) (hspec : controlPlane.Spec.RotateCertificates = some rotation)
    (nodes : List planEntry) :
    submittedNodes (nodes.flatMap (submissionFor h controlPlane)) = nodes ∧
    statusWrites (nodes.flatMap (submissionFor h controlPlane)) = [] ∧
    submissions (nodes.flatMap (submissionFor h controlPlane)) =
      nodes.flatMap (submissionFor h controlPlane) ∧
    (nodes.flatMap (submissionFor h controlPlane)).length = nodes.length := by
  induction nodes with
  | nil => simp [submittedNodes, statusWrites, submissions]
  | cons node rest ih =>
    obtain ⟨nodePlan, hp⟩ := rotateCertificatesPlan_some h controlPlane rotation node
    rw [← hspec] at hp
    obtain ⟨h1, h2, h3, h4⟩ := ih
    simp only [submittedNodes, statusWrites, submissions] at h1 h2 h3 ⊢
    simp [submissionFor, hp, h1, h2, h3, h4]

/-- With the gate closed the method returns `nil` at once. -/
theorem RotateCertificates_closed (h : Helpers) (c : Collaborators) (cp : RKEControlPlane)
    (nodes : List planEntry) (hgate : shouldRotate cp = false) :
    certificateRotation.RotateCertificates h c cp nodes =
      { outcome := Outcome.returned none, controlPlane := cp, calls := [] } := by
  simp [certificateRotation.RotateCertificates, hgate]

/-- With the gate open and a first failing submission the method returns that error
after the submissions up to the failing one, the control plane untouched. -/
theorem RotateCertificates_fail (h : Helpers) (c : Collaborators) (cp : RKEControlPlane)
    (nodes : List planEntry) (k : Nat) (e : String) (hgate : shouldRotate cp = true)
    (hk : k < nodes.length) (hok : ∀ j, j < k → c.assignAndCheckPlan j = none)
    (hfail : c.assignAndCheckPlan k = some e) :
    certificateRotation.RotateCertificates h c cp nodes =
      { outcome := Outcome.returned (some e), controlPlane := cp,
        calls := (nodes.take (k + 1)).flatMap (submissionFor h cp) } := by
  obtain ⟨rotation, hspec⟩ := shouldRotate_spec cp hgate
  have hloop := rotateNodes_fail h c cp rotation hspec nodes 0 [] k e hk
    (by simpa using hok) (by simpa using hfail)
  simp [certificateRotation.RotateCertificates, hgate, hloop]

/-- With the gate open and no failing submission the method commits the spec
generation to the status, writes the status once and returns what the write returned. -/
theorem RotateCertificates_ok (h : Helpers) (c : Collaborators) (cp : RKEControlPlane)
    (rotation : RotateCertificates) (nodes : List planEntry) (hgate : shouldRotate cp = true)
    (hspec : cp.Spec.RotateCertificates = some rotation)
    (hok : ∀ j, j < nodes.length → c.assignAndCheckPlan j = none) :
    certificateRotation.RotateCertificates h c cp nodes =
      { outcome := Outcome.returned (c.UpdateStatus
          { cp with Status := { cp.Status with
              CertificateRotationGeneration := rotation.Generation } })
        controlPlane :=
          { cp with Status := { cp.Status with
              CertificateRotationGeneration := rotation.Generation } }
        calls := nodes.flatMap (submissionFor h cp) ++
          [Call.UpdateStatus { cp with Status := { cp.Status with
              CertificateRotationGeneration := rotation.Generation } }] } := by
  have hloop := rotateNodes_ok h c cp rotation hspec nodes 0 [] (by simpa using hok)
  simp [certificateRotation.RotateCertificates, hgate, hloop, hspec]

/-- Among finitely many submissions, either all succeed or there is a first one that fails. -/
theorem first_failure (c : Collaborators) (n : Nat) :
    (∀ j, j < n → c.assignAndCheckPlan j = none) ∨
    ∃ k e, k < n ∧ (∀ j, j < k → c.assignAndCheckPlan j = none) ∧
      c.assignAndCheckPlan k = some e := by
  induction n with
  | zero => left; intro j hj; omega
  | succ n ih =>
    rcases ih with hall | ⟨k, e, hk, hok, hfail⟩
    · cases hn : c.assignAndCheckPlan n with
      | none =>
        left
        intro j hj
        rcases Nat.lt_succ_iff_lt_or_eq.mp hj with hlt | rfl
        · exact hall j hlt
        · exact hn
      | some e => exact Or.inr ⟨n, e, Nat.lt_succ_self n, hall, hn⟩
    · exact Or.inr ⟨k, e, Nat.lt_succ_of_lt hk, hok, hfail⟩

/-- C5: if the gate is open and the submission for the node at position `k` is the
first to fail, with error `e`, then `RotateCertificates` returns exactly `e`, the
submissions made are those for the nodes up to position `k` and no other,
`UpdateStatus` is not called and the control plane, its status generation included, is
as before the call.  Hence the status generation is written only in a pass in which
every submission succeeded. -/
theorem RotateCertificates_first_failure (h : Helpers) (c : Collaborators)
    (cp : RKEControlPlane) (nodes : List planEntry) :
    (∀ k e, shouldRotate cp = true → k < nodes.length →
      (∀ j, j < k → c.assignAndCheckPlan j = none) → c.assignAndCheckPlan k = some e →
        (certificateRotation.RotateCertificates h c cp nodes).outcome =
          Outcome.returned (some e) ∧
        submittedNodes (certificateRotation.RotateCertificates h c cp nodes).calls =
          nodes.take (k + 1) ∧
        (certificateRotation.RotateCertificates h c cp nodes).calls.length = k + 1 ∧
        statusWrites (certificateRotation.RotateCertificates h c cp nodes).calls = [] ∧
        (certificateRotation.RotateCertificates h c cp nodes).controlPlane = cp ∧
        (certificateRotation.RotateCertificates h c cp
            nodes).controlPlane.Status.CertificateRotationGeneration =
          cp.Status.CertificateRotationGeneration) ∧
    ((certificateRotation.RotateCertificates h c cp
          nodes).controlPlane.Status.CertificateRotationGeneration ≠
        cp.Status.CertificateRotationGeneration ∨
      statusWrites (certificateRotation.RotateCertificates h c cp nodes).calls ≠ [] →
        shouldRotate cp = true ∧ ∀ j, j < nodes.length → c.assignAndCheckPlan j = none) := by
  have key : ∀ k e, shouldRotate cp = true → k < nodes.length →
      (∀ j, j < k → c.assignAndCheckPlan j = none) → c.assignAndCheckPlan k = some e →
        (certificateRotation.RotateCertificates h c cp nodes).controlPlane = cp ∧
        statusWrites (certificateRotation.RotateCertificates h c cp nodes).calls = [] ∧
        (certificateRotation.RotateCertificates h c cp nodes).outcome =
          Outcome.returned (some e) ∧
        submittedNodes (certificateRotation.RotateCertificates h c cp nodes).calls =
          nodes.take (k + 1) ∧
        (certificateRotation.RotateCertificates h c cp nodes).calls.length = k + 1 := by
    intro k e hgate hk hok hfail
    obtain ⟨rotation, hspec⟩ := shouldRotate_spec cp hgate
    obtain ⟨h1, h2, -, h4⟩ := submittedNodes_submissionFor h cp rotation hspec (nodes.take (k + 1))
    rw [RotateCertificates_fail h c cp nodes k e hgate hk hok hfail]
    refine ⟨rfl, h2, rfl, h1, ?_⟩
    simp only [h4, List.length_take]
    omega
  constructor
  · intro k e hgate hk hok hfail
    obtain ⟨h1, h2, h3, h4, h5⟩ := key k e hgate hk hok hfail
    exact ⟨h3, h4, h5, h2, h1, by rw [h1]⟩
  · intro hwritten
    cases hgate : shouldRotate cp with
    | false =>
      rw [RotateCertificates_closed h c cp nodes hgate] at hwritten
      simp [statusWrites] at hwritten
    | true =>
      refine ⟨rfl, ?_⟩
      rcases first_failure c nodes.length with hall | ⟨k, e, hk, hok, hfail⟩
      · exact hall
      · obtain ⟨h1, h2, -⟩ := key k e hgate hk hok hfail
        rw [h1, h2] at hwritten
        simp at hwritten

/-- Three nodes, status 3, spec 4, the submission for the second node fails: the
error is returned, two submissions were made, the status is not written and the
status generation is still 3. -/
theorem RotateCertificates_first_failure_witness :
    shouldRotate staleControlPlane = true ∧ 1 < threeNodes.length ∧
    (∀ j, j < 1 → secondNodeFails.assignAndCheckPlan j = none) ∧
    secondNodeFails.assignAndCheckPlan 1 = some "plan not applied" ∧
    (certificateRotation.RotateCertificates rke2Helpers secondNodeFails staleControlPlane
        threeNodes).outcome = Outcome.returned (some "plan not applied") ∧
    submittedNodes (certificateRotation.RotateCertificates rke2Helpers secondNodeFails
        staleControlPlane threeNodes).calls = threeNodes.take 2 ∧
    (certificateRotation.RotateCertificates rke2Helpers secondNodeFails staleControlPlane
        threeNodes).controlPlane.Status.CertificateRotationGeneration = 3 := by
  have hok : ∀ j, j < 1 → secondNodeFails.assignAndCheckPlan j = none := by decide
  obtain ⟨h1, h2, -, -, -, h6⟩ :=
    (RotateCertificates_first_failure rke2Helpers secondNodeFails staleControlPlane
      threeNodes).1 1 "plan not applied" (by decide) (by decide) hok (by decide)
  exact ⟨by decide, by decide, hok, by decide, h1, h2, h6⟩

/-- C6: if the gate is open and every submission succeeds, `RotateCertificates` sets
the status generation to the spec generation, calls `UpdateStatus` exactly once, with
that control plane and after one submission per node, and returns exactly what
`UpdateStatus` returned, an error or `nil`. -/
theorem RotateCertificates_commit (h : Helpers) (c : Collaborators) (cp : RKEControlPlane)
    (nodes : List planEntry) (hgate : shouldRotate cp = true)
    (hok : ∀ j, j < nodes.length → c.assignAndCheckPlan j = none) :
    ∃ rotation, cp.Spec.RotateCertificates = some rotation ∧
      (certificateRotation.RotateCertificates h c cp nodes).controlPlane =
        { cp with Status := { cp.Status with
            CertificateRotationGeneration := rotation.Generation } } ∧
      (certificateRotation.RotateCertificates h c cp
          nodes).controlPlane.Status.CertificateRotationGeneration = rotation.Generation ∧
      statusWrites (certificateRotation.RotateCertificates h c cp nodes).calls =
        [(certificateRotation.RotateCertificates h c cp nodes).controlPlane] ∧
      submittedNodes (certificateRotation.RotateCertificates h c cp nodes).calls = nodes ∧
      (certificateRotation.RotateCertificates h c cp nodes).calls.getLast? =
        some (Call.UpdateStatus (certificateRotation.RotateCertificates h c cp nodes).controlPlane) ∧
      (certificateRotation.RotateCertificates h c cp nodes).outcome =
        Outcome.returned
          (c.UpdateStatus (certificateRotation.RotateCertificates h c cp nodes).controlPlane) := by
  obtain ⟨rotation, hspec⟩ := shouldRotate_spec cp hgate
  obtain ⟨h1, h2, -, -⟩ := submittedNodes_submissionFor h cp rotation hspec nodes
  refine ⟨rotation, hspec, ?_⟩
  rw [RotateCertificates_ok h c cp rotation nodes hgate hspec hok]
  refine ⟨rfl, rfl, ?_, ?_, ?_, rfl⟩
  · simp only [statusWrites] at h2 ⊢
    simp [List.filterMap_append, h2]
  · simp only [submittedNodes] at h1 ⊢
    simp [List.filterMap_append, h1]
  · simp

/-- Three nodes, status 3, spec 4, every submission succeeds and the status write
fails: the status generation is 4, one status write was made and its error is what
the method returns. -/
theorem RotateCertificates_commit_witness :
    shouldRotate staleControlPlane = true ∧
    (∀ j, j < threeNodes.length → statusWriteFails.assignAndCheckPlan j = none) ∧
    (certificateRotation.RotateCertificates rke2Helpers statusWriteFails staleControlPlane
        threeNodes).controlPlane.Status.CertificateRotationGeneration = 4 ∧
    (statusWrites (certificateRotation.RotateCertificates rke2Helpers statusWriteFails
        staleControlPlane threeNodes).calls).length = 1 ∧
    (certificateRotation.RotateCertificates rke2Helpers statusWriteFails staleControlPlane
        threeNodes).outcome = Outcome.returned (some "conflict") := by
  have hok : ∀ j, j < threeNodes.length → statusWriteFails.assignAndCheckPlan j = none := by
    intro j _
    rfl
  obtain ⟨rotation, hspec, -, h2, h3, -, -, h6⟩ :=
    RotateCertificates_commit rke2Helpers statusWriteFails staleControlPlane threeNodes
      (by decide) hok
  have hr : rotation = ⟨4, []⟩ := by
    have : staleControlPlane.Spec.RotateCertificates = some ⟨4, []⟩ := rfl
    rw [this] at hspec
    exact (Option.some.inj hspec).symm
  subst hr
  exact ⟨by decide, hok, h2, by rw [h3]; rfl, h6⟩

/-- C7: when `shouldRotate` is false, because the control plane is not initialized,
has no rotation spec or has equal generations, `RotateCertificates` returns `nil`,
makes no call to a collaborator, neither a submission nor a status write, and leaves
the control plane as it was; so a pass that makes a submission has `Initialized` true
and a rotation spec present. -/
theorem RotateCertificates_gate_closed (h : Helpers) (c : Collaborators) (cp : RKEControlPlane)
    (nodes : List planEntry) :
    (shouldRotate cp = false →
      (certificateRotation.RotateCertificates h c cp nodes).outcome = Outcome.returned none ∧
      (certificateRotation.RotateCertificates h c cp nodes).calls = [] ∧
      submissions (certificateRotation.RotateCertificates h c cp nodes).calls = [] ∧
      statusWrites (certificateRotation.RotateCertificates h c cp nodes).calls = [] ∧
      (certificateRotation.RotateCertificates h c cp nodes).controlPlane = cp ∧
      (certificateRotation.RotateCertificates h c cp
          nodes).controlPlane.Status.CertificateRotationGeneration =
        cp.Status.CertificateRotationGeneration) ∧
    (cp.Status.Initialized = false ∨ cp.Spec.RotateCertificates = none ∨
      (∃ rotation, cp.Spec.RotateCertificates = some rotation ∧
        cp.Status.CertificateRotationGeneration = rotation.Generation) →
      shouldRotate cp = false) ∧
    (submissions (certificateRotation.RotateCertificates h c cp nodes).calls ≠ [] →
      cp.Status.Initialized = true ∧ cp.Spec.RotateCertificates ≠ none) := by
  refine ⟨?_, ?_, ?_⟩
  · intro hgate
    rw [RotateCertificates_closed h c cp nodes hgate]
    exact ⟨rfl, rfl, rfl, rfl, rfl, rfl⟩
  · rintro (hinit | hspec | ⟨rotation, hspec, hgen⟩)
    · simp [shouldRotate, hinit]
    · cases hi : cp.Status.Initialized <;> simp [shouldRotate, hspec]
    · cases hi : cp.Status.Initialized <;> simp [shouldRotate, hspec, hgen]
  · intro hsub
    cases hgate : shouldRotate cp with
    | false =>
      rw [RotateCertificates_closed h c cp nodes hgate] at hsub
      exact absurd rfl hsub
    | true =>
      obtain ⟨rotation, hspec⟩ := shouldRotate_spec cp hgate
      refine ⟨?_, by simp [hspec]⟩
      cases hi : cp.Status.Initialized with
      | true => rfl
      | false => simp [shouldRotate, hi] at hgate

/-- A control plane already at its spec generation: the pass over three nodes, even
with collaborators that would fail, returns `nil` without a call, the status
generation still 4. -/
theorem RotateCertificates_gate_closed_witness :
    shouldRotate currentControlPlane = false ∧
    (certificateRotation.RotateCertificates rke2Helpers secondNodeFails currentControlPlane
        threeNodes).outcome = Outcome.returned none ∧
    (certificateRotation.RotateCertificates rke2Helpers secondNodeFails currentControlPlane
        threeNodes).calls = [] ∧
    (certificateRotation.RotateCertificates rke2Helpers secondNodeFails currentControlPlane
        threeNodes).controlPlane.Status.CertificateRotationGeneration = 4 := by
  obtain ⟨h1, h2, -, -, -, h6⟩ :=
    (RotateCertificates_gate_closed rke2Helpers secondNodeFails currentControlPlane
      threeNodes).1 (by decide)
  exact ⟨by decide, h1, h2, h6⟩

/-! ## Base64 transport of the script -/

/-- Every six-bit value is decoded from its own character, which is neither padding
nor a line break. -/
theorem decodeStdChar_encodeStdChar :
    ∀ v, v < 64 → decodeStdChar (encodeStdChar v) = some v ∧ encodeStdChar v ≠ '=' ∧
      encodeStdChar v ≠ '\r' ∧ encodeStdChar v ≠ '\n' := by
  decide

/-- A group whose last character is not padding is decoded as a full group, also at
the end of the input. -/
theorem decodeStdChars_full (c0 c1 c2 c3 : Char) (rest : List Char) (hc3 : c3 ≠ '=') :
    decodeStdChars (c0 :: c1 :: c2 :: c3 :: rest) =
      match decodeQuantum c0 c1 c2 c3, decodeStdChars rest with
      | some q, some r => some (q ++ r)
      | _, _ => none := by
  cases rest with
  | nil =>
    simp only [decodeStdChars, decodeLastQuantum, hc3, if_false]
    cases decodeQuantum c0 c1 c2 c3 <;> simp
  | cons c4 rest => simp only [decodeStdChars]

/-- Decoding undoes encoding, for every sequence of bytes. -/
theorem decodeStdChars_encodeStdChars (src : List Nat) (hsrc : ∀ b ∈ src, b < 256) :
    decodeStdChars (encodeStdChars src) = some src := by
  induction src using encodeStdChars.induct with
  | case1 => rfl
  | case2 a =>
    have ha : a < 256 := hsrc a (by simp)
    obtain ⟨d0, p0, -⟩ := decodeStdChar_encodeStdChar (a / 4) (by omega)
    obtain ⟨d1, p1, -⟩ := decodeStdChar_encodeStdChar (a % 4 * 16) (by omega)
    simp only [encodeStdChars, decodeStdChars, decodeLastQuantum, if_true, d0, d1]
    simp
    omega
  | case3 a b =>
    have ha : a < 256 := hsrc a (by simp)
    have hb : b < 256 := hsrc b (by simp)
    obtain ⟨d0, p0, -⟩ := decodeStdChar_encodeStdChar (a / 4) (by omega)
    obtain ⟨d1, p1, -⟩ := decodeStdChar_encodeStdChar (a % 4 * 16 + b / 16) (by omega)
    obtain ⟨d2, p2, -⟩ := decodeStdChar_encodeStdChar (b % 16 * 4) (by omega)
    simp only [encodeStdChars, decodeStdChars, decodeLastQuantum, if_true, p2, if_false,
      d0, d1, d2]
    simp
    omega
  | case4 a b c rest ih =>
    have ha : a < 256 := hsrc a (by simp)
    have hb : b < 256 := hsrc b (by simp)
    have hc : c < 256 := hsrc c (by simp)
    have hrest : ∀ x ∈ rest, x < 256 := fun x hx => hsrc x (by simp [hx])
    obtain ⟨d0, p0, -⟩ := decodeStdChar_encodeStdChar (a / 4) (by omega)
    obtain ⟨d1, p1, -⟩ := decodeStdChar_encodeStdChar (a % 4 * 16 + b / 16) (by omega)
    obtain ⟨d2, p2, -⟩ := decodeStdChar_encodeStdChar (b % 16 * 4 + c / 64) (by omega)
    obtain ⟨d3, p3, -⟩ := decodeStdChar_encodeStdChar (c % 64) (by omega)
    simp only [encodeStdChars]
    rw [decodeStdChars_full _ _ _ _ _ p3, ih hrest]
    simp only [decodeQuantum, d0, d1, d2, d3]
    simp
    omega

/-- The encoder emits no line break, so the decoder skips nothing of its output. -/
theorem encodeStdChars_no_linebreak (src : List Nat) (hsrc : ∀ b ∈ src, b < 256) :
    ∀ ch ∈ encodeStdChars src, (ch != '\r' && ch != '\n') = true := by
  induction src using encodeStdChars.induct with
  | case1 => simp [encodeStdChars]
  | case2 a =>
    have ha : a < 256 := hsrc a (by simp)
    obtain ⟨-, -, q0, r0⟩ := decodeStdChar_encodeStdChar (a / 4) (by omega)
    obtain ⟨-, -, q1, r1⟩ := decodeStdChar_encodeStdChar (a % 4 * 16) (by omega)
    simp [encodeStdChars, q0, r0, q1, r1]
  | case3 a b =>
    have ha : a < 256 := hsrc a (by simp)
    have hb : b < 256 := hsrc b (by simp)
    obtain ⟨-, -, q0, r0⟩ := decodeStdChar_encodeStdChar (a / 4) (by omega)
    obtain ⟨-, -, q1, r1⟩ := decodeStdChar_encodeStdChar (a % 4 * 16 + b / 16) (by omega)
    obtain ⟨-, -, q2, r2⟩ := decodeStdChar_encodeStdChar (b % 16 * 4) (by omega)
    simp [encodeStdChars, q0, r0, q1, r1, q2, r2]
  | case4 a b c rest ih =>
    have ha : a < 256 := hsrc a (by simp)
    have hb : b < 256 := hsrc b (by simp)
    have hc : c < 256 := hsrc c (by simp)
    have hrest : ∀ x ∈ rest, x < 256 := fun x hx => hsrc x (by simp [hx])
    obtain ⟨-, -, q0, r0⟩ := decodeStdChar_encodeStdChar (a / 4) (by omega)
    obtain ⟨-, -, q1, r1⟩ := decodeStdChar_encodeStdChar (a % 4 * 16 + b / 16) (by omega)
    obtain ⟨-, -, q2, r2⟩ := decodeStdChar_encodeStdChar (b % 16 * 4 + c / 64) (by omega)
    obtain ⟨-, -, q3, r3⟩ := decodeStdChar_encodeStdChar (c % 64) (by omega)
    intro ch hch
    simp only [encodeStdChars, List.mem_cons] at hch
    rcases hch with rfl | rfl | rfl | rfl | hch
    · simp [q0, r0]
    · simp [q1, r1]
    · simp [q2, r2]
    · simp [q3, r3]
    · exact ih hrest ch hch

/-- `DecodeString` undoes `EncodeToString`, for every sequence of bytes. -/
theorem DecodeString_EncodeToString (src : List Nat) (hsrc : ∀ b ∈ src, b < 256) :
    DecodeString (EncodeToString src) = some src := by
  unfold DecodeString EncodeToString
  rw [List.filter_eq_self.mpr (encodeStdChars_no_linebreak src hsrc)]
  exact decodeStdChars_encodeStdChars src hsrc

/-- The bytes of a string are bytes. -/
theorem bytesOf_lt (s : String) : ∀ b ∈ bytesOf s, b < 256 := by
  intro b hb
  simp only [bytesOf, List.mem_map] at hb
  obtain ⟨u, -, rfl⟩ := hb
  exact u.val.isLt

/-- C8: for a node that is not worker-only, standard padded base64 decoding of the
content of every file of the plan succeeds and yields exactly the bytes of
`idempotentRotateScript`; the content is the encoding of that constant, the same for
every generation and every list of services. -/
theorem rotateCertificatesPlan_file_roundtrip (h : Helpers) (controlPlane : RKEControlPlane)
    (rotation other : RotateCertificates) (entry : planEntry)
    (hw : h.isOnlyWorker entry = false) :
    ∃ nodePlan otherPlan,
      rotateCertificatesPlan h controlPlane (some rotation) entry = some nodePlan ∧
      rotateCertificatesPlan h controlPlane (some other) entry = some otherPlan ∧
      nodePlan.Files.length = 1 ∧
      (∀ file ∈ nodePlan.Files,
        DecodeString file.Content = some (bytesOf idempotentRotateScript) ∧
        file.Content = EncodeToString (bytesOf idempotentRotateScript)) ∧
      nodePlan.Files = otherPlan.Files := by
  refine ⟨_, _, rotateCertificatesPlan_server h controlPlane rotation entry hw,
    rotateCertificatesPlan_server h controlPlane other entry hw, rfl, ?_, rfl⟩
  intro file hfile
  rw [List.mem_singleton] at hfile
  subst hfile
  exact ⟨DecodeString_EncodeToString _ (bytesOf_lt _), rfl⟩

set_option maxRecDepth 100000 in
/-- The file of the plan for the control-plane node of an RKE2 cluster decodes to the
bytes of the script; its content is the base64 text shown. -/
theorem rotateCertificatesPlan_file_roundtrip_witness :
    rke2Helpers.isOnlyWorker serverNode = false ∧
    ∃ nodePlan,
      rotateCertificatesPlan rke2Helpers scopedControlPlane
        (some ⟨7, ["etcd", "kube-apiserver"]⟩) serverNode = some nodePlan ∧
      nodePlan.Files.length = 1 ∧
      ∀ file ∈ nodePlan.Files,
        DecodeString file.Content = some (bytesOf idempotentRotateScript) ∧
        file.Content =
          "CiMhL2Jpbi9zaAoKY3VycmVudEdlbmVyYXRpb249IiIKdGFyZ2V0R2VuZXJhdGlvbj0kMgpydW50aW1lPSQxCnNoaWZ0CnNoaWZ0CgpkYXRhUm9vdD0iL3Zhci9saWIvcmFuY2hlci8kcnVudGltZS9jZXJ0aWZpY2F0ZV9yb3RhdGlvbiIKZ2VuZXJhdGlvbkZpbGU9IiRkYXRhUm9vdC9nZW5lcmF0aW9uIgoKY3VycmVudEdlbmVyYXRpb249JChjYXQgIiRnZW5lcmF0aW9uRmlsZSIgfHwgZWNobyAiIikKCmlmIFsgIiRjdXJyZW50R2VuZXJhdGlvbiIgIT0gIiR0YXJnZXRHZW5lcmF0aW9uIiBdOyB0aGVuCiAgJHJ1bnRpbWUgY2VydGlmaWNhdGUgcm90YXRlICAkQAplbHNlCgllY2hvICJjZXJ0aWZpY2F0ZXMgaGF2ZSBhbHJlYWR5IGJlZW4gcm90YXRlZCB0byB0aGUgY3VycmVudCBnZW5lcmF0aW9uLiIKZmkKCm1rZGlyIC1wICRkYXRhUm9vdAplY2hvICR0YXJnZXRHZW5lcmF0aW9uID4gIiRnZW5lcmF0aW9uRmlsZSIK" := by
  refine ⟨by decide, ?_⟩
  obtain ⟨nodePlan, -, h1, -, h3, h4, -⟩ :=
    rotateCertificatesPlan_file_roundtrip rke2Helpers scopedControlPlane
      ⟨7, ["etcd", "kube-apiserver"]⟩ ⟨8, []⟩ serverNode (by decide)
  refine ⟨nodePlan, h1, h3, fun file hfile => ⟨(h4 file hfile).1, ?_⟩⟩
  rw [(h4 file hfile).2]
  decide

/-! ## The script on the node -/

/-- A character of a printed number: a decimal digit or the minus sign. -/
theorem digitChar_plain : ∀ d, d < 10 →
    isIFS (Nat.digitChar d) = false ∧ isIFS '-' = false := by
  decide

/-- The digits of a number in base ten contain no blank, tab or newline. -/
theorem toDigitsCore_plain (fuel n : Nat) (ds : List Char)
    (hds : ∀ ch ∈ ds, isIFS ch = false) :
    ∀ ch ∈ Nat.toDigitsCore 10 fuel n ds, isIFS ch = false := by
  induction fuel generalizing n ds with
  | zero => simpa [Nat.toDigitsCore] using hds
  | succ fuel ih =>
    have hd : isIFS (Nat.digitChar (n % 10)) = false :=
      (digitChar_plain (n % 10) (Nat.mod_lt n (by decide))).1
    have hcons : ∀ ch ∈ Nat.digitChar (n % 10) :: ds, isIFS ch = false := by
      intro ch hch
      rcases List.mem_cons.mp hch with rfl | hch
      · exact hd
      · exact hds ch hch
    simp only [Nat.toDigitsCore]
    split
    · exact hcons
    · exact ih (n / 10) _ hcons

/-- With fuel left the digits of a number are not empty. -/
theorem toDigitsCore_ne_nil (fuel n : Nat) (ds : List Char) :
    Nat.toDigitsCore 10 (fuel + 1) n ds ≠ [] := by
  induction fuel generalizing n ds with
  | zero =>
    simp only [Nat.toDigitsCore]
    split <;> simp
  | succ fuel ih =>
    rw [Nat.toDigitsCore]
    split
    · simp
    · exact ih (n / 10) _

/-- A generation in decimal is a single non-empty word for the shell. -/
theorem FormatInt_plain (g : Int) :
    (FormatInt g 10).data ≠ [] ∧ ∀ ch ∈ (FormatInt g 10).data, isIFS ch = false := by
  unfold FormatInt
  split
  · constructor
    · simp [String.data_append]
    · intro ch hch
      simp only [String.data_append, List.asString, List.mem_append] at hch
      rcases hch with hch | hch
      · have : ch = '-' := by simpa using hch
        subst this
        decide
      · exact toDigitsCore_plain _ _ [] (by simp) ch hch
  · constructor
    · simpa [List.asString, Nat.toDigits] using toDigitsCore_ne_nil _ _ []
    · intro ch hch
      exact toDigitsCore_plain _ _ [] (by simp) ch hch

/-- Field splitting leaves a word without blanks as it is. -/
theorem splitFields_plain (s : String) (hne : s.data ≠ [])
    (hs : ∀ ch ∈ s.data, isIFS ch = false) : splitFields s = [s] := by
  unfold splitFields
  rw [List.splitOnP_eq_single isIFS s.data (by simpa using hs)]
  simp [hne]

/-- No character of a printed number is a pattern character. -/
theorem digitChar_no_pattern : ∀ d, d < 10 →
    isPatternChar (Nat.digitChar d) = false ∧ isPatternChar '-' = false := by
  decide

/-- What holds of the ten digit characters and of the digits already there holds of
every digit produced for a number. -/
theorem toDigitsCore_all (P : Char → Prop) (hP : ∀ d, d < 10 → P (Nat.digitChar d))
    (fuel n : Nat) (ds : List Char) (hds : ∀ ch ∈ ds, P ch) :
    ∀ ch ∈ Nat.toDigitsCore 10 fuel n ds, P ch := by
  induction fuel generalizing n ds with
  | zero => simpa [Nat.toDigitsCore] using hds
  | succ fuel ih =>
    have hcons : ∀ ch ∈ Nat.digitChar (n % 10) :: ds, P ch := by
      intro ch hch
      rcases List.mem_cons.mp hch with rfl | hch
      · exact hP (n % 10) (Nat.mod_lt n (by decide))
      · exact hds ch hch
    simp only [Nat.toDigitsCore]
    split
    · exact hcons
    · exact ih (n / 10) _ hcons

/-- A generation in decimal holds no pattern character. -/
theorem FormatInt_no_pattern (g : Int) :
    ∀ ch ∈ (FormatInt g 10).data, isPatternChar ch = false := by
  have hdigits : ∀ n, ∀ ch ∈ Nat.toDigits 10 n, isPatternChar ch = false := fun n =>
    toDigitsCore_all (fun ch => isPatternChar ch = false)
      (fun d hd => (digitChar_no_pattern d hd).1) (n + 1) n [] (by simp)
  unfold FormatInt
  split
  · intro ch hch
    simp only [String.data_append, List.asString, List.mem_append] at hch
    rcases hch with hch | hch
    · have : ch = '-' := by simpa using hch
      subst this
      decide
    · exact hdigits _ ch hch
  · intro ch hch
    exact hdigits _ ch hch

/-- An unquoted expansion leaves a non-empty word without blanks and without pattern
characters as it is, whatever files the node has. -/
theorem expandUnquoted_plain (matching : String → List String) (s : String)
    (hne : s.data ≠ []) (hs : ∀ ch ∈ s.data, isIFS ch = false)
    (hp : ∀ ch ∈ s.data, isPatternChar ch = false) : expandUnquoted matching s = [s] := by
  have hany : s.data.any isPatternChar = false := by
    rw [List.any_eq_false]
    intro ch hch
    simp [hp ch hch]
  simp [expandUnquoted, splitFields_plain s hne hs, expandPathname, hany]

/-- An unquoted expansion of a generation in decimal is that one word. -/
theorem expandUnquoted_FormatInt (matching : String → List String) (g : Int) :
    expandUnquoted matching (FormatInt g 10) = [FormatInt g 10] :=
  expandUnquoted_plain matching _ (FormatInt_plain g).1 (FormatInt_plain g).2
    (FormatInt_no_pattern g)

/-- Reading back what `echo` wrote for a word without blanks gives the word. -/
theorem commandSubstitution_echoOutput (s : String)
    (hs : ∀ ch ∈ s.data, isIFS ch = false) : commandSubstitution (echoOutput [s]) = s := by
  have hlast : List.rdropWhile (fun ch => ch == '\n') s.data = s.data := by
    rw [List.rdropWhile_eq_self_iff]
    intro hne
    have := hs _ (List.getLast_mem hne)
    simp only [isIFS, Bool.or_eq_false_iff] at this
    simpa using this.2
  unfold commandSubstitution echoOutput
  simp only [String.intercalate, String.intercalate.go, String.data_append]
  rw [List.rdropWhile_concat_pos _ _ _ (by simp), hlast]

/-- After the marker has been written for a generation, it reads as that generation. -/
theorem currentGeneration_marked (matching : String → List String) (fs : FileSystem)
    (runtime : String) (g : Int) :
    currentGeneration
      (Function.update fs (generationFile runtime)
        (some (echoOutput (expandUnquoted matching (FormatInt g 10))))) runtime =
      FormatInt g 10 := by
  simp only [currentGeneration, Function.update_same, expandUnquoted_FormatInt]
  exact commandSubstitution_echoOutput _ (FormatInt_plain g).2

/-- A run that finds the marker at the target generation starts no rotation and writes
the marker again. -/
theorem runRotateScript_current (pathnames : Pathnames) (errexit rotateOk : Bool)
    (fs : FileSystem) (runtime target : String) (rest : List String)
    (hcur : currentGeneration fs runtime = target) :
    runRotateScript pathnames errexit rotateOk fs (runtime :: target :: rest) =
      { fs := Function.update fs (generationFile runtime)
          (some (echoOutput (expandUnquoted (pathnames 83) target)))
        rotations := []
        succeeded := true } := by
  simp [runRotateScript, hcur]

/-- A run that finds another marker, or none, starts the rotation command once; when
the command fails under `errexit` the run ends there, otherwise it writes the marker. -/
theorem runRotateScript_stale (pathnames : Pathnames) (errexit rotateOk : Bool)
    (fs : FileSystem) (runtime target : String) (rest : List String)
    (hcur : currentGeneration fs runtime ≠ target) :
    runRotateScript pathnames errexit rotateOk fs (runtime :: target :: rest) =
      if errexit && !rotateOk then
        { fs := fs
          rotations := [expandUnquoted (pathnames 77) runtime ++ ["certificate", "rotate"] ++
            rest.flatMap (expandUnquoted (pathnames 77))]
          succeeded := false }
      else
        { fs := Function.update fs (generationFile runtime)
            (some (echoOutput (expandUnquoted (pathnames 83) target)))
          rotations := [expandUnquoted (pathnames 77) runtime ++ ["certificate", "rotate"] ++
            rest.flatMap (expandUnquoted (pathnames 77))]
          succeeded := true } := by
  simp [runRotateScript, hcur]

/-- The script invocation of a plan runs the script under `errexit` with the runtime,
the generation and the service flags as positional parameters. -/
theorem runShInstruction_plan (pathnames : Pathnames) (rotateOk : Bool) (fs : FileSystem)
    (script runtime target : String) (flags : List String) :
    runShInstruction pathnames rotateOk fs (["-xe", script, runtime, target] ++ flags) =
      some (runRotateScript pathnames true rotateOk fs (runtime :: target :: flags)) := by
  rfl

/-- C9, as amended: two runs of the script in a row with the same runtime and
generation start the rotation command at most once when the first run ends with
status zero, for then the second run reads a marker equal to the target and takes
the no-op branch; when the first run is ended by a failing rotation command under
`errexit`, the marker is left as it was and the two runs start the command twice. -/
theorem runRotateScript_twice (p1 p2 : Pathnames) (errexit ok1 ok2 : Bool) (fs : FileSystem)
    (runtime : String)
    (g : Int) (rest1 rest2 : List String) :
    ((runRotateScript p1 errexit ok1 fs (runtime :: FormatInt g 10 :: rest1)).succeeded = true →
      currentGeneration (runRotateScript p1 errexit ok1 fs
        (runtime :: FormatInt g 10 :: rest1)).fs runtime = FormatInt g 10 ∧
      (runRotateScript p2 errexit ok2
        (runRotateScript p1 errexit ok1 fs (runtime :: FormatInt g 10 :: rest1)).fs
        (runtime :: FormatInt g 10 :: rest2)).rotations = [] ∧
      (runRotateScript p1 errexit ok1 fs (runtime :: FormatInt g 10 :: rest1)).rotations.length +
        (runRotateScript p2 errexit ok2
          (runRotateScript p1 errexit ok1 fs (runtime :: FormatInt g 10 :: rest1)).fs
          (runtime :: FormatInt g 10 :: rest2)).rotations.length ≤ 1) ∧
    ((runRotateScript p1 errexit ok1 fs (runtime :: FormatInt g 10 :: rest1)).succeeded = false →
      errexit = true ∧ ok1 = false ∧
      (runRotateScript p1 errexit ok1 fs (runtime :: FormatInt g 10 :: rest1)).fs = fs ∧
      (runRotateScript p1 errexit ok1 fs (runtime :: FormatInt g 10 :: rest1)).rotations.length +
        (runRotateScript p2 errexit ok2
          (runRotateScript p1 errexit ok1 fs (runtime :: FormatInt g 10 :: rest1)).fs
          (runtime :: FormatInt g 10 :: rest2)).rotations.length = 2) := by
  by_cases hcur : currentGeneration fs runtime = FormatInt g 10
  · rw [runRotateScript_current p1 errexit ok1 fs runtime _ rest1 hcur]
    have hmark := currentGeneration_marked (p1 83) fs runtime g
    constructor
    · intro _
      refine ⟨hmark, ?_, ?_⟩
      · rw [runRotateScript_current p2 errexit ok2 _ runtime _ rest2 hmark]
      · rw [runRotateScript_current p2 errexit ok2 _ runtime _ rest2 hmark]
        simp
    · intro hf
      simp at hf
  · rw [runRotateScript_stale p1 errexit ok1 fs runtime _ rest1 hcur]
    by_cases hstop : (errexit && !ok1) = true
    · rw [if_pos hstop]
      constructor
      · intro hf
        simp at hf
      · intro _
        have h1 : errexit = true ∧ ok1 = false := by
          cases errexit <;> cases ok1 <;> simp at hstop ⊢
        refine ⟨h1.1, h1.2, rfl, ?_⟩
        rw [runRotateScript_stale p2 errexit ok2 fs runtime _ rest2 hcur]
        split <;> rfl
    · rw [if_neg hstop]
      have hmark := currentGeneration_marked (p1 83) fs runtime g
      constructor
      · intro _
        refine ⟨hmark, ?_, ?_⟩
        · rw [runRotateScript_current p2 errexit ok2 _ runtime _ rest2 hmark]
        · rw [runRotateScript_current p2 errexit ok2 _ runtime _ rest2 hmark]
          simp
      · intro hf
        simp at hf

/-- Two runs of the script as the plan invokes it, on a node without marker, the
rotation command failing in the first run and succeeding in the second: the first run
ends at the failed command and leaves the marker missing, so the second run starts
the command again, twice in all. -/
theorem runRotateScript_twice_counterexample :
    ∃ first second,
      (rotateCertificatesPlan rke2Helpers staleControlPlane (some ⟨4, []⟩) serverNode).map
        (fun nodePlan => nodePlan.Instructions.map fun i => (i.Command, i.Args)) =
        some [("sh", rotateArgs), ("systemctl", ["restart", "rke2-server"])] ∧
      runShInstruction noMatches false noFiles rotateArgs = some first ∧
      runShInstruction noMatches true first.fs rotateArgs = some second ∧
      first.succeeded = false ∧
      first.fs (generationFile "rke2") = none ∧
      first.rotations = [["rke2", "certificate", "rotate"]] ∧
      second.rotations = [["rke2", "certificate", "rotate"]] ∧
      ¬ (first.rotations.length + second.rotations.length ≤ 1) :=
  ⟨_, _, by decide, rfl, rfl, by decide, by decide, by decide, by decide, by decide⟩

/-- Two runs for generation 4 on a node without marker, the rotation command
succeeding: the second run starts no rotation command. -/
theorem runRotateScript_twice_witness :
    (runRotateScript noMatches true true noFiles ("rke2" :: FormatInt 4 10 :: [])).succeeded = true ∧
    (runRotateScript noMatches true true noFiles ("rke2" :: FormatInt 4 10 :: [])).rotations.length = 1 ∧
    (runRotateScript noMatches true false
      (runRotateScript noMatches true true noFiles ("rke2" :: FormatInt 4 10 :: [])).fs
      ("rke2" :: FormatInt 4 10 :: [])).rotations = [] := by
  have hfirst :
      (runRotateScript noMatches true true noFiles ("rke2" :: FormatInt 4 10 :: [])).succeeded = true := by
    decide
  exact ⟨hfirst, by decide,
    ((runRotateScript_twice noMatches noMatches true true false noFiles "rke2" 4 [] []).1 hfirst).2.1⟩

/-- What `echo` prints for a single word. -/
theorem echoOutput_single (s : String) : echoOutput [s] = s ++ "\n" := by
  simp [echoOutput, String.intercalate, String.intercalate.go]

/-- C10, as amended: in a run of the script as the plan invokes it, with `sh -xe`, the
marker is written with the target generation when the rotation command succeeds and
when it is skipped, and after such a run the marker reads as the target generation;
when the rotation command is started and fails, the run ends there with a non-zero
status and every file, the marker included, is as before the run. -/
theorem plan_script_marker (h : Helpers) (controlPlane : RKEControlPlane)
    (rotation : RotateCertificates) (entry : planEntry) (pathnames : Pathnames)
    (rotateOk : Bool) (fs : FileSystem) (hw : h.isOnlyWorker entry = false) :
    ∃ nodePlan first rest run,
      rotateCertificatesPlan h controlPlane (some rotation) entry = some nodePlan ∧
      nodePlan.Instructions = first :: rest ∧
      runShInstruction pathnames rotateOk fs first.Args = some run ∧
      (rotateOk = true ∨
          currentGeneration fs (h.GetRuntime controlPlane.Spec.KubernetesVersion) =
            FormatInt rotation.Generation 10 →
        run.succeeded = true ∧
        run.fs (generationFile (h.GetRuntime controlPlane.Spec.KubernetesVersion)) =
          some (FormatInt rotation.Generation 10 ++ "\n") ∧
        currentGeneration run.fs (h.GetRuntime controlPlane.Spec.KubernetesVersion) =
          FormatInt rotation.Generation 10) ∧
      (rotateOk = false ∧
          currentGeneration fs (h.GetRuntime controlPlane.Spec.KubernetesVersion) ≠
            FormatInt rotation.Generation 10 →
        run.succeeded = false ∧ run.rotations.length = 1 ∧ run.fs = fs) := by
  have hmark := currentGeneration_marked (pathnames 83) fs
    (h.GetRuntime controlPlane.Spec.KubernetesVersion) rotation.Generation
  have hwritten : Function.update fs
      (generationFile (h.GetRuntime controlPlane.Spec.KubernetesVersion))
      (some (echoOutput (expandUnquoted (pathnames 83) (FormatInt rotation.Generation 10))))
      (generationFile (h.GetRuntime controlPlane.Spec.KubernetesVersion)) =
        some (FormatInt rotation.Generation 10 ++ "\n") := by
    rw [Function.update_same, expandUnquoted_FormatInt, echoOutput_single]
  refine ⟨_, _, _, _, rotateCertificatesPlan_server h controlPlane rotation entry hw, rfl,
    runShInstruction_plan pathnames rotateOk fs _ _ _ _, ?_, ?_⟩
  · intro hcase
    by_cases hcur : currentGeneration fs (h.GetRuntime controlPlane.Spec.KubernetesVersion) =
        FormatInt rotation.Generation 10
    · rw [runRotateScript_current pathnames true rotateOk fs _ _ _ hcur]
      exact ⟨rfl, hwritten, hmark⟩
    · have hok : rotateOk = true := hcase.resolve_right hcur
      rw [runRotateScript_stale pathnames true rotateOk fs _ _ _ hcur]
      subst hok
      exact ⟨rfl, hwritten, hmark⟩
  · rintro ⟨hok, hcur⟩
    rw [runRotateScript_stale pathnames true rotateOk fs _ _ _ hcur]
    subst hok
    exact ⟨rfl, rfl, rfl⟩

/-- The script invocation of the plan for generation 4 on a node without marker, the
rotation command failing: the run ends with a non-zero status after starting the
command and the marker is still missing, not written with the target generation. -/
theorem plan_script_marker_counterexample :
    ∃ nodePlan first rest run,
      rotateCertificatesPlan rke2Helpers staleControlPlane (some ⟨4, []⟩) serverNode =
        some nodePlan ∧
      nodePlan.Instructions = first :: rest ∧
      first.Args = rotateArgs ∧
      runShInstruction noMatches false noFiles first.Args = some run ∧
      run.rotations = [["rke2", "certificate", "rotate"]] ∧
      run.succeeded = false ∧
      run.fs (generationFile "rke2") = none ∧
      run.fs (generationFile "rke2") ≠ some (FormatInt 4 10 ++ "\n") ∧
      currentGeneration run.fs "rke2" ≠ FormatInt 4 10 :=
  ⟨_, _, _, _, rotateCertificatesPlan_server rke2Helpers staleControlPlane ⟨4, []⟩ serverNode
    (by decide), rfl, by decide, rfl, by decide, by decide, by decide, by decide, by decide⟩

/-- The script invocation of the plan for generation 4 on a node without marker, the
rotation command succeeding: the marker holds `4` and a newline afterwards. -/
theorem plan_script_marker_witness :
    rke2Helpers.isOnlyWorker serverNode = false ∧
    ∃ nodePlan first rest run,
      rotateCertificatesPlan rke2Helpers staleControlPlane (some ⟨4, []⟩) serverNode =
        some nodePlan ∧
      nodePlan.Instructions = first :: rest ∧
      runShInstruction noMatches true noFiles first.Args = some run ∧
      run.succeeded = true ∧
      run.fs (generationFile "rke2") = some "4\n" := by
  refine ⟨by decide, ?_⟩
  obtain ⟨nodePlan, first, rest, run, h1, h2, h3, h4, -⟩ :=
    plan_script_marker rke2Helpers staleControlPlane ⟨4, []⟩ serverNode noMatches true noFiles
      (by decide)
  obtain ⟨h5, h6, -⟩ := h4 (Or.inl rfl)
  exact ⟨nodePlan, first, rest, run, h1, h2, h3, h5, h6.trans (by decide)⟩

/-! ## Passes in a row -/

/-- After the spec generation has been committed the gate is closed. -/
theorem shouldRotate_committed (cp : RKEControlPlane) (rotation : RotateCertificates)
    (hspec : cp.Spec.RotateCertificates = some rotation) :
    shouldRotate { cp with Status := { cp.Status with
      CertificateRotationGeneration := rotation.Generation } } = false := by
  cases hi : cp.Status.Initialized <;> simp [shouldRotate, hspec, hi]

/-- A pass with the gate open ends in one of two ways: at a first failing submission,
or with the status write after every submission succeeded. -/
theorem RotateCertificates_cases (h : Helpers) (c : Collaborators) (cp : RKEControlPlane)
    (nodes : List planEntry) (hgate : shouldRotate cp = true) :
    (∃ k e, k < nodes.length ∧ (∀ j, j < k → c.assignAndCheckPlan j = none) ∧
      c.assignAndCheckPlan k = some e ∧
      certificateRotation.RotateCertificates h c cp nodes =
        { outcome := Outcome.returned (some e), controlPlane := cp,
          calls := (nodes.take (k + 1)).flatMap (submissionFor h cp) }) ∨
    (∃ rotation, cp.Spec.RotateCertificates = some rotation ∧
      (∀ j, j < nodes.length → c.assignAndCheckPlan j = none) ∧
      certificateRotation.RotateCertificates h c cp nodes =
        { outcome := Outcome.returned (c.UpdateStatus
            { cp with Status := { cp.Status with
                CertificateRotationGeneration := rotation.Generation } })
          controlPlane :=
            { cp with Status := { cp.Status with
                CertificateRotationGeneration := rotation.Generation } }
          calls := nodes.flatMap (submissionFor h cp) ++
            [Call.UpdateStatus { cp with Status := { cp.Status with
                CertificateRotationGeneration := rotation.Generation } }] }) := by
  rcases first_failure c nodes.length with hall | ⟨k, e, hk, hok, hfail⟩
  · obtain ⟨rotation, hspec⟩ := shouldRotate_spec cp hgate
    exact Or.inr ⟨rotation, hspec, hall, RotateCertificates_ok h c cp rotation nodes hgate hspec hall⟩
  · exact Or.inl ⟨k, e, hk, hok, hfail, RotateCertificates_fail h c cp nodes k e hgate hk hok hfail⟩

/-- C11: for an initialized control plane whose status generation differs from its spec
generation: if the submission for one of the nodes fails during a pass, the pass
returns an error, the status generation keeps its old value and `shouldRotate` is still
true; a following pass on the resulting control plane in which every submission and
the status write succeed returns `nil` and leaves the status generation equal to the
spec generation. -/
theorem RotateCertificates_retry (h : Helpers) (c1 c2 : Collaborators) (cp : RKEControlPlane)
    (rotation : RotateCertificates) (nodes nodes2 : List planEntry) (k : Nat)
    (hinit : cp.Status.Initialized = true)
    (hspec : cp.Spec.RotateCertificates = some rotation)
    (hstale : cp.Status.CertificateRotationGeneration ≠ rotation.Generation)
    (hk : k < nodes.length) (hfail : c1.assignAndCheckPlan k ≠ none)
    (hok2 : ∀ j, j < nodes2.length → c2.assignAndCheckPlan j = none)
    (hwrite2 : c2.UpdateStatus { cp with Status := { cp.Status with
      CertificateRotationGeneration := rotation.Generation } } = none) :
    (∃ e, (certificateRotation.RotateCertificates h c1 cp nodes).outcome =
      Outcome.returned (some e)) ∧
    (certificateRotation.RotateCertificates h c1 cp
        nodes).controlPlane.Status.CertificateRotationGeneration =
      cp.Status.CertificateRotationGeneration ∧
    shouldRotate (certificateRotation.RotateCertificates h c1 cp nodes).controlPlane = true ∧
    (certificateRotation.RotateCertificates h c2
        (certificateRotation.RotateCertificates h c1 cp nodes).controlPlane nodes2).outcome =
      Outcome.returned none ∧
    (certificateRotation.RotateCertificates h c2
        (certificateRotation.RotateCertificates h c1 cp nodes).controlPlane
        nodes2).controlPlane.Status.CertificateRotationGeneration = rotation.Generation := by
  have hgate : shouldRotate cp = true := by
    simp [shouldRotate, hinit, hspec, hstale]
  rcases RotateCertificates_cases h c1 cp nodes hgate with
    ⟨k1, e, -, -, -, hpass⟩ | ⟨-, -, hall, -⟩
  · have hcp : (certificateRotation.RotateCertificates h c1 cp nodes).controlPlane = cp := by
      rw [hpass]
    have hout : (certificateRotation.RotateCertificates h c1 cp nodes).outcome =
        Outcome.returned (some e) := by
      rw [hpass]
    rw [hcp, RotateCertificates_ok h c2 cp rotation nodes2 hgate hspec hok2, hwrite2]
    exact ⟨⟨e, hout⟩, rfl, hgate, rfl, rfl⟩
  · exact absurd (hall k hk) hfail

/-- Three nodes, status 3, spec 4: the submission for the second node fails and the
status generation stays 3; the retry with every call succeeding returns `nil` and
leaves the status generation at 4. -/
theorem RotateCertificates_retry_witness :
    staleControlPlane.Status.Initialized = true ∧
    staleControlPlane.Status.CertificateRotationGeneration ≠ 4 ∧
    1 < threeNodes.length ∧ secondNodeFails.assignAndCheckPlan 1 ≠ none ∧
    (certificateRotation.RotateCertificates rke2Helpers secondNodeFails staleControlPlane
        threeNodes).outcome = Outcome.returned (some "plan not applied") ∧
    (certificateRotation.RotateCertificates rke2Helpers secondNodeFails staleControlPlane
        threeNodes).controlPlane.Status.CertificateRotationGeneration = 3 ∧
    (certificateRotation.RotateCertificates rke2Helpers allSucceed
        (certificateRotation.RotateCertificates rke2Helpers secondNodeFails staleControlPlane
          threeNodes).controlPlane threeNodes).outcome = Outcome.returned none ∧
    (certificateRotation.RotateCertificates rke2Helpers allSucceed
        (certificateRotation.RotateCertificates rke2Helpers secondNodeFails staleControlPlane
          threeNodes).controlPlane
        threeNodes).controlPlane.Status.CertificateRotationGeneration = 4 := by
  obtain ⟨-, h2, -, h4, h5⟩ :=
    RotateCertificates_retry rke2Helpers secondNodeFails allSucceed staleControlPlane ⟨4, []⟩
      threeNodes threeNodes 1 rfl rfl (by decide) (by decide) (by decide)
      (fun _ _ => rfl) rfl
  exact ⟨rfl, by decide, by decide, by decide, by decide, h2, h4, h5⟩

/-- With a rotation spec at hand every node has a plan, and the submissions the loop
makes for a list of nodes are one per node, in order, each with the label naming the
machine, the node, that plan and both tolerances at zero. -/
theorem submissionFor_eq (h : Helpers) (cp : RKEControlPlane) (rotation : RotateCertificates)
    (hspec : cp.Spec.RotateCertificates = some rotation) :
    ∃ planOf : planEntry → NodePlan,
      (∀ node, rotateCertificatesPlan h cp cp.Spec.RotateCertificates node =
        some (planOf node)) ∧
      ∀ nodes : List planEntry, nodes.flatMap (submissionFor h cp) =
        nodes.map fun node => Call.assignAndCheckPlan
          ("[" ++ node.Machine.Name ++ "] certificate rotation") node (planOf node) 0 0 := by
  refine ⟨fun node => (rotateCertificatesPlan h cp (some rotation) node).getD ⟨[], []⟩, ?_, ?_⟩
  · intro node
    obtain ⟨nodePlan, hp⟩ := rotateCertificatesPlan_some h cp rotation node
    simp only [hspec, hp, Option.getD_some]
  · intro nodes
    induction nodes with
    | nil => rfl
    | cons node rest ih =>
      obtain ⟨nodePlan, hp⟩ := rotateCertificatesPlan_some h cp rotation node
      rw [List.flatMap_cons, ih]
      simp [submissionFor, hspec, hp]

/-- A list of submissions holds nothing but submissions. -/
theorem submissions_map (label : planEntry → String) (planOf : planEntry → NodePlan)
    (nodes : List planEntry) :
    submissions (nodes.map fun node =>
      Call.assignAndCheckPlan (label node) node (planOf node) 0 0) =
    nodes.map fun node => Call.assignAndCheckPlan (label node) node (planOf node) 0 0 := by
  induction nodes with
  | nil => rfl
  | cons node rest ih =>
    simp only [submissions] at ih ⊢
    simp [ih]

/-- C13: when the gate is open and no submission fails, `RotateCertificates` makes
exactly one submission per node, in the order of the enumeration, and the submission
for a node carries the label `[<machine name>] certificate rotation`, the node itself,
the plan `rotateCertificatesPlan` builds for it from the control plane and its rotation
spec, and both tolerances at 0; when a submission fails, the calls made are exactly
the submissions for the nodes up to and including the failing one. -/
theorem RotateCertificates_submissions (h : Helpers) (c : Collaborators) (cp : RKEControlPlane)
    (nodes : List planEntry) (hgate : shouldRotate cp = true) :
    ∃ planOf : planEntry → NodePlan,
      (∀ node, rotateCertificatesPlan h cp cp.Spec.RotateCertificates node =
        some (planOf node)) ∧
      ((∀ j, j < nodes.length → c.assignAndCheckPlan j = none) →
        submissions (certificateRotation.RotateCertificates h c cp nodes).calls =
          nodes.map (fun node => Call.assignAndCheckPlan
            ("[" ++ node.Machine.Name ++ "] certificate rotation") node (planOf node) 0 0) ∧
        (submissions (certificateRotation.RotateCertificates h c cp nodes).calls).length =
          nodes.length) ∧
      (∀ k e, k < nodes.length → (∀ j, j < k → c.assignAndCheckPlan j = none) →
        c.assignAndCheckPlan k = some e →
          (certificateRotation.RotateCertificates h c cp nodes).calls =
            (nodes.take (k + 1)).map (fun node => Call.assignAndCheckPlan
              ("[" ++ node.Machine.Name ++ "] certificate rotation") node (planOf node) 0 0) ∧
          submissions (certificateRotation.RotateCertificates h c cp nodes).calls =
            (certificateRotation.RotateCertificates h c cp nodes).calls) := by
  obtain ⟨rotation, hspec⟩ := shouldRotate_spec cp hgate
  obtain ⟨planOf, hplan, hsub⟩ := submissionFor_eq h cp rotation hspec
  refine ⟨planOf, hplan, ?_, ?_⟩
  · intro hok
    rw [RotateCertificates_ok h c cp rotation nodes hgate hspec hok, hsub nodes]
    have hs := submissions_map (fun node => "[" ++ node.Machine.Name ++ "] certificate rotation")
      planOf nodes
    have : submissions ((nodes.map fun node => Call.assignAndCheckPlan
          ("[" ++ node.Machine.Name ++ "] certificate rotation") node (planOf node) 0 0) ++
          [Call.UpdateStatus { cp with Status := { cp.Status with
            CertificateRotationGeneration := rotation.Generation } }]) =
        nodes.map fun node => Call.assignAndCheckPlan
          ("[" ++ node.Machine.Name ++ "] certificate rotation") node (planOf node) 0 0 := by
      simp only [submissions] at hs ⊢
      simp [List.filter_append, hs]
    rw [this]
    exact ⟨rfl, by simp⟩
  · intro k e hk hok hfail
    rw [RotateCertificates_fail h c cp nodes k e hgate hk hok hfail, hsub]
    exact ⟨rfl, submissions_map _ planOf _⟩

/-- Three nodes, status 3, spec 4, every call succeeding: three submissions, labelled
with the machine names, in the order of the nodes. -/
theorem RotateCertificates_submissions_witness :
    shouldRotate staleControlPlane = true ∧
    (submissions (certificateRotation.RotateCertificates rke2Helpers allSucceed
      staleControlPlane threeNodes).calls).length = 3 ∧
    (certificateRotation.RotateCertificates rke2Helpers allSucceed staleControlPlane
      threeNodes).calls.map
      (fun call => match call with
        | Call.assignAndCheckPlan msg entry _ a b => some (msg, entry.Machine.Name, a, b)
        | Call.UpdateStatus _ => none) =
      [some ("[cp-1] certificate rotation", "cp-1", 0, 0),
       some ("[etcd-1] certificate rotation", "etcd-1", 0, 0),
       some ("[worker-1] certificate rotation", "worker-1", 0, 0), none] := by
  obtain ⟨planOf, -, hall, -⟩ :=
    RotateCertificates_submissions rke2Helpers allSucceed staleControlPlane threeNodes
      (by decide)
  exact ⟨by decide, (hall (fun _ _ => rfl)).2, by decide⟩

/-- C16: if the gate is open, every submission succeeds and `UpdateStatus` returns an
error, `RotateCertificates` returns that error, and the control plane object it was
given has its status generation already set to the spec generation, the assignment
coming before the write and not being undone; `shouldRotate` on that object is then
false. -/
theorem RotateCertificates_write_fails (h : Helpers) (c : Collaborators) (cp : RKEControlPlane)
    (rotation : RotateCertificates) (nodes : List planEntry) (e : String)
    (hgate : shouldRotate cp = true)
    (hspec : cp.Spec.RotateCertificates = some rotation)
    (hok : ∀ j, j < nodes.length → c.assignAndCheckPlan j = none)
    (hwrite : c.UpdateStatus { cp with Status := { cp.Status with
      CertificateRotationGeneration := rotation.Generation } } = some e) :
    (certificateRotation.RotateCertificates h c cp nodes).outcome =
      Outcome.returned (some e) ∧
    (certificateRotation.RotateCertificates h c cp
        nodes).controlPlane.Status.CertificateRotationGeneration = rotation.Generation ∧
    (certificateRotation.RotateCertificates h c cp nodes).controlPlane.Spec = cp.Spec ∧
    (certificateRotation.RotateCertificates h c cp nodes).calls.getLast? =
      some (Call.UpdateStatus
        (certificateRotation.RotateCertificates h c cp nodes).controlPlane) ∧
    shouldRotate (certificateRotation.RotateCertificates h c cp nodes).controlPlane = false := by
  rw [RotateCertificates_ok h c cp rotation nodes hgate hspec hok, hwrite]
  exact ⟨rfl, rfl, rfl, by simp, shouldRotate_committed cp rotation hspec⟩

/-- Three nodes, status 3, spec 4, every submission succeeds and the status write
fails with a conflict: the conflict is returned, the object holds generation 4 and its
gate is closed. -/
theorem RotateCertificates_write_fails_witness :
    shouldRotate staleControlPlane = true ∧
    (∀ j, j < threeNodes.length → statusWriteFails.assignAndCheckPlan j = none) ∧
    (certificateRotation.RotateCertificates rke2Helpers statusWriteFails staleControlPlane
        threeNodes).outcome = Outcome.returned (some "conflict") ∧
    (certificateRotation.RotateCertificates rke2Helpers statusWriteFails staleControlPlane
        threeNodes).controlPlane.Status.CertificateRotationGeneration = 4 ∧
    shouldRotate (certificateRotation.RotateCertificates rke2Helpers statusWriteFails
        staleControlPlane threeNodes).controlPlane = false := by
  obtain ⟨h1, h2, -, -, h5⟩ :=
    RotateCertificates_write_fails rke2Helpers statusWriteFails staleControlPlane ⟨4, []⟩
      threeNodes "conflict" (by decide) rfl (fun _ _ => rfl) rfl
  exact ⟨by decide, fun _ _ => rfl, h1, h2, h5⟩

/-- The loop alone, entered without a rotation spec, panics at the first node that is
not worker-only. -/
theorem rotateNodes_nil_spec (h : Helpers) (c : Collaborators) (cp : RKEControlPlane)
    (node : planEntry) (rest : List planEntry) (i : Nat) (calls : List Call)
    (hspec : cp.Spec.RotateCertificates = none) (hw : h.isOnlyWorker node = false) :
    rotateNodes h c cp i (node :: rest) calls = (some Outcome.panicked, calls) := by
  simp [rotateNodes, rotateCertificatesPlan, hspec, hw]

/-- C17: within `RotateCertificates` the rotation spec is never dereferenced while it
is absent: for every control plane, also one without a rotation spec, and every node
list the method does not panic; without a rotation spec it returns `nil` before any
call, so the plan builder is called and the spec generation is read for the status
only when the spec is present.  The gate is what keeps the panic away: the loop
entered without a spec panics at the first node that is not worker-only. -/
theorem RotateCertificates_no_panic (h : Helpers) (c : Collaborators) (cp : RKEControlPlane)
    (nodes : List planEntry) :
    (certificateRotation.RotateCertificates h c cp nodes).outcome ≠ Outcome.panicked ∧
    (cp.Spec.RotateCertificates = none →
      certificateRotation.RotateCertificates h c cp nodes =
        { outcome := Outcome.returned none, controlPlane := cp, calls := [] }) ∧
    ((certificateRotation.RotateCertificates h c cp nodes).calls ≠ [] →
      ∃ rotation, cp.Spec.RotateCertificates = some rotation ∧
        ∀ node, rotateCertificatesPlan h cp cp.Spec.RotateCertificates node ≠ none) ∧
    (∀ node rest, cp.Spec.RotateCertificates = none → h.isOnlyWorker node = false →
      (rotateNodes h c cp 0 (node :: rest) []).1 = some Outcome.panicked) := by
  have hclosed : cp.Spec.RotateCertificates = none → shouldRotate cp = false := by
    intro hspec
    cases hi : cp.Status.Initialized <;> simp [shouldRotate, hspec]
  refine ⟨?_, ?_, ?_, ?_⟩
  · cases hgate : shouldRotate cp with
    | false =>
      rw [RotateCertificates_closed h c cp nodes hgate]
      simp
    | true =>
      rcases RotateCertificates_cases h c cp nodes hgate with
        ⟨k, e, -, -, -, hpass⟩ | ⟨rotation, -, -, hpass⟩
      · rw [hpass]
        simp
      · rw [hpass]
        simp
  · intro hspec
    exact RotateCertificates_closed h c cp nodes (hclosed hspec)
  · intro hcalls
    cases hspec : cp.Spec.RotateCertificates with
    | none =>
      rw [RotateCertificates_closed h c cp nodes (hclosed hspec)] at hcalls
      exact absurd rfl hcalls
    | some rotation =>
      refine ⟨rotation, rfl, fun node => ?_⟩
      obtain ⟨nodePlan, hp⟩ := rotateCertificatesPlan_some h cp rotation node
      rw [hp]
      simp
  · intro node rest hspec hw
    rw [rotateNodes_nil_spec h c cp node rest 0 [] hspec hw]

/-- C18: `RotateCertificates` is idempotent after success: after a pass that returns
`nil`, `shouldRotate` on the resulting control plane is false, and a second call on it,
its spec being the same, returns `nil` without a submission and without a status
write; when the gate was open in the first pass, all its submissions succeeded and the
status generation is the spec generation. -/
theorem RotateCertificates_idempotent (h : Helpers) (c c2 : Collaborators)
    (cp : RKEControlPlane) (nodes nodes2 : List planEntry)
    (hnil : (certificateRotation.RotateCertificates h c cp nodes).outcome =
      Outcome.returned none) :
    shouldRotate (certificateRotation.RotateCertificates h c cp nodes).controlPlane = false ∧
    (certificateRotation.RotateCertificates h c cp nodes).controlPlane.Spec = cp.Spec ∧
    certificateRotation.RotateCertificates h c2
        (certificateRotation.RotateCertificates h c cp nodes).controlPlane nodes2 =
      { outcome := Outcome.returned none
        controlPlane := (certificateRotation.RotateCertificates h c cp nodes).controlPlane
        calls := [] } ∧
    (shouldRotate cp = true →
      (∀ j, j < nodes.length → c.assignAndCheckPlan j = none) ∧
      ∃ rotation, cp.Spec.RotateCertificates = some rotation ∧
        (certificateRotation.RotateCertificates h c cp
          nodes).controlPlane.Status.CertificateRotationGeneration = rotation.Generation ∧
        c.UpdateStatus (certificateRotation.RotateCertificates h c cp nodes).controlPlane =
          none) := by
  cases hgate : shouldRotate cp with
  | false =>
    rw [RotateCertificates_closed h c cp nodes hgate]
    exact ⟨hgate, rfl, RotateCertificates_closed h c2 cp nodes2 hgate, by simp⟩
  | true =>
    rcases RotateCertificates_cases h c cp nodes hgate with
      ⟨k, e, -, -, -, hpass⟩ | ⟨rotation, hspec, hall, hpass⟩
    · rw [hpass] at hnil
      simp at hnil
    · have hclosed := shouldRotate_committed cp rotation hspec
      have hwrite : c.UpdateStatus { cp with Status := { cp.Status with
          CertificateRotationGeneration := rotation.Generation } } = none := by
        rw [hpass] at hnil
        simpa using hnil
      rw [hpass]
      exact ⟨hclosed, rfl, RotateCertificates_closed h c2 _ nodes2 hclosed,
        fun _ => ⟨hall, rotation, hspec, rfl, hwrite⟩⟩

/-- Three nodes, status 3, spec 4, every call succeeding: the pass returns `nil`; a
second pass on the result, even with collaborators that would fail, returns `nil`
without a call. -/
theorem RotateCertificates_idempotent_witness :
    (certificateRotation.RotateCertificates rke2Helpers allSucceed staleControlPlane
      threeNodes).outcome = Outcome.returned none ∧
    shouldRotate (certificateRotation.RotateCertificates rke2Helpers allSucceed
      staleControlPlane threeNodes).controlPlane = false ∧
    (certificateRotation.RotateCertificates rke2Helpers secondNodeFails
      (certificateRotation.RotateCertificates rke2Helpers allSucceed staleControlPlane
        threeNodes).controlPlane threeNodes).outcome = Outcome.returned none ∧
    (certificateRotation.RotateCertificates rke2Helpers secondNodeFails
      (certificateRotation.RotateCertificates rke2Helpers allSucceed staleControlPlane
        threeNodes).controlPlane threeNodes).calls = [] := by
  have hnil : (certificateRotation.RotateCertificates rke2Helpers allSucceed staleControlPlane
      threeNodes).outcome = Outcome.returned none := by decide
  obtain ⟨h1, -, h3, -⟩ :=
    RotateCertificates_idempotent rke2Helpers allSucceed secondNodeFails staleControlPlane
      threeNodes threeNodes hnil
  exact ⟨hnil, h1, by rw [h3], by rw [h3]⟩

/-- An initialized control plane without a rotation spec and three nodes: the method
returns `nil` without a call, it does not panic; the loop alone would panic at the
control-plane node. -/
theorem RotateCertificates_no_panic_witness :
    unrequestedControlPlane.Spec.RotateCertificates = none ∧
    (certificateRotation.RotateCertificates rke2Helpers allSucceed unrequestedControlPlane
      threeNodes).outcome ≠ Outcome.panicked ∧
    certificateRotation.RotateCertificates rke2Helpers allSucceed unrequestedControlPlane
      threeNodes =
      { outcome := Outcome.returned none, controlPlane := unrequestedControlPlane, calls := [] } ∧
    (rotateNodes rke2Helpers allSucceed unrequestedControlPlane 0 threeNodes []).1 =
      some Outcome.panicked := by
  obtain ⟨h1, h2, -, h4⟩ :=
    RotateCertificates_no_panic rke2Helpers allSucceed unrequestedControlPlane threeNodes
  exact ⟨rfl, h1, h2 rfl, h4 serverNode _ rfl (by decide)⟩

/-! ## What the plan depends on -/

/-- C12: `rotateCertificatesPlan` depends on the rotation generation, the rotation
services, the worker-only classification of the node and the Kubernetes version of the
cluster only: two calls that agree on these four return equal plans, whatever the
other fields of the control planes and of the node entries are. -/
theorem rotateCertificatesPlan_deterministic (h : Helpers) (cp cp2 : RKEControlPlane)
    (rotation rotation2 : RotateCertificates) (entry entry2 : planEntry)
    (hversion : cp.Spec.KubernetesVersion = cp2.Spec.KubernetesVersion)
    (hgeneration : rotation.Generation = rotation2.Generation)
    (hservices : rotation.Services = rotation2.Services)
    (hworker : h.isOnlyWorker entry = h.isOnlyWorker entry2) :
    rotateCertificatesPlan h cp (some rotation) entry =
      rotateCertificatesPlan h cp2 (some rotation2) entry2 ∧
    ∃ nodePlan, rotateCertificatesPlan h cp (some rotation) entry = some nodePlan ∧
      rotateCertificatesPlan h cp2 (some rotation2) entry2 = some nodePlan := by
  have hplan : rotateCertificatesPlan h cp (some rotation) entry =
      rotateCertificatesPlan h cp2 (some rotation2) entry2 := by
    simp only [rotateCertificatesPlan, hversion, hgeneration, hservices, hworker]
  obtain ⟨nodePlan, hp⟩ := rotateCertificatesPlan_some h cp rotation entry
  exact ⟨hplan, nodePlan, hp, hplan ▸ hp⟩

/-- Two control planes of the same version with different status generations, a
control-plane node and an etcd node with other names and labels, the same request:
the two plans are equal. -/
theorem rotateCertificatesPlan_deterministic_witness :
    staleControlPlane ≠ committedControlPlane ∧
    serverNode ≠ (⟨⟨"etcd-1"⟩, [("rke.cattle.io/etcd-role", "true")]⟩ : planEntry) ∧
    rotateCertificatesPlan rke2Helpers staleControlPlane (some ⟨4, ["etcd"]⟩) serverNode =
      rotateCertificatesPlan rke2Helpers committedControlPlane (some ⟨4, ["etcd"]⟩)
        ⟨⟨"etcd-1"⟩, [("rke.cattle.io/etcd-role", "true")]⟩ :=
  ⟨by decide, by decide,
    (rotateCertificatesPlan_deterministic rke2Helpers staleControlPlane committedControlPlane
      ⟨4, ["etcd"]⟩ ⟨4, ["etcd"]⟩ serverNode ⟨⟨"etcd-1"⟩, [("rke.cattle.io/etcd-role", "true")]⟩
      rfl rfl rfl (by decide)).1⟩

/-- The script path is the data root of the runtime followed by `/bin/rotate.sh`. -/
theorem rotateScriptPath_eq (runtime : String) :
    "/var/lib/rancher/" ++ runtime ++ "/certificate_rotation/bin/rotate.sh" =
      dataRoot runtime ++ "/bin/rotate.sh" := by
  unfold dataRoot
  rw [String.append_assoc ("/var/lib/rancher/" ++ runtime)]
  rfl

/-- C14: for a node that is not worker-only the single file of the plan has the path
`/var/lib/rancher/<runtime>/certificate_rotation/bin/rotate.sh`, the same string is the
second argument of the `sh` instruction and the third argument is the same runtime
name; so the script the plan runs is the file the plan writes, and the data root the
script derives from its first positional parameter,
`/var/lib/rancher/<runtime>/certificate_rotation`, is an initial segment of the path of
the script. -/
theorem rotateCertificatesPlan_script_path (h : Helpers) (controlPlane : RKEControlPlane)
    (rotation : RotateCertificates) (entry : planEntry) (hw : h.isOnlyWorker entry = false) :
    ∃ nodePlan file first rest,
      rotateCertificatesPlan h controlPlane (some rotation) entry = some nodePlan ∧
      nodePlan.Files = [file] ∧
      nodePlan.Instructions = first :: rest ∧
      first.Command = "sh" ∧
      file.Path = "/var/lib/rancher/" ++ h.GetRuntime controlPlane.Spec.KubernetesVersion ++
        "/certificate_rotation/bin/rotate.sh" ∧
      first.Args[1]? = some file.Path ∧
      first.Args[2]? = some (h.GetRuntime controlPlane.Spec.KubernetesVersion) ∧
      (∀ pathnames rotateOk fs, ∃ flags,
        runShInstruction pathnames rotateOk fs first.Args =
          some (runRotateScript pathnames true rotateOk fs
            (h.GetRuntime controlPlane.Spec.KubernetesVersion :: flags))) ∧
      file.Path = dataRoot (h.GetRuntime controlPlane.Spec.KubernetesVersion) ++
        "/bin/rotate.sh" ∧
      (dataRoot (h.GetRuntime controlPlane.Spec.KubernetesVersion)).data <+: file.Path.data := by
  refine ⟨_, _, _, _, rotateCertificatesPlan_server h controlPlane rotation entry hw,
    rfl, rfl, rfl, rfl, rfl, rfl, ?_, rotateScriptPath_eq _, ?_⟩
  · intro pathnames rotateOk fs
    exact ⟨_, runShInstruction_plan pathnames rotateOk fs _ _ _ _⟩
  · rw [rotateScriptPath_eq, String.data_append]
    exact List.prefix_append _ _

/-- The plan for the control-plane node of an RKE2 cluster: the file and the script
argument are `/var/lib/rancher/rke2/certificate_rotation/bin/rotate.sh`, the runtime
argument is `rke2`, and the data root of the script is
`/var/lib/rancher/rke2/certificate_rotation`. -/
theorem rotateCertificatesPlan_script_path_witness :
    rke2Helpers.isOnlyWorker serverNode = false ∧
    dataRoot "rke2" = "/var/lib/rancher/rke2/certificate_rotation" ∧
    ∃ nodePlan file first rest,
      rotateCertificatesPlan rke2Helpers staleControlPlane (some ⟨4, []⟩) serverNode =
        some nodePlan ∧
      nodePlan.Files = [file] ∧
      nodePlan.Instructions = first :: rest ∧
      file.Path = "/var/lib/rancher/rke2/certificate_rotation/bin/rotate.sh" ∧
      first.Args[1]? = some file.Path ∧
      first.Args[2]? = some "rke2" ∧
      (dataRoot "rke2").data <+: file.Path.data := by
  refine ⟨by decide, by decide, ?_⟩
  obtain ⟨nodePlan, file, first, rest, h1, h2, h3, -, h5, h6, h7, -, -, h10⟩ :=
    rotateCertificatesPlan_script_path rke2Helpers staleControlPlane ⟨4, []⟩ serverNode
      (by decide)
  exact ⟨nodePlan, file, first, rest, h1, h2, h3, h5.trans (by decide), h6, h7, h10⟩

/-- C20: for a worker-only node the plan does not depend on the rotation request: for a
fixed Kubernetes version `rotateCertificatesPlan` returns the same plan for every
generation and every list of services, and also without a rotation spec, which it
does not read; so the worker plan for a new generation equals the one for the
previous generation. -/
theorem rotateCertificatesPlan_worker_constant (h : Helpers) (cp cp2 : RKEControlPlane)
    (rotation rotation2 : Option RotateCertificates) (entry : planEntry)
    (hversion : cp.Spec.KubernetesVersion = cp2.Spec.KubernetesVersion)
    (hw : h.isOnlyWorker entry = true) :
    rotateCertificatesPlan h cp rotation entry = rotateCertificatesPlan h cp2 rotation2 entry ∧
    rotateCertificatesPlan h cp none entry = some {
      Files := []
      Instructions := [
        { Name := "restart"
          Command := "systemctl"
          Args := ["restart", h.GetRuntimeAgentUnit cp.Spec.KubernetesVersion] }] } ∧
    (∀ generation generation2 services services2,
      rotateCertificatesPlan h cp (some ⟨generation, services⟩) entry =
        rotateCertificatesPlan h cp (some ⟨generation2, services2⟩) entry) := by
  refine ⟨?_, rotateCertificatesPlan_workerOnly h cp none entry hw, ?_⟩
  · rw [rotateCertificatesPlan_workerOnly h cp rotation entry hw,
      rotateCertificatesPlan_workerOnly h cp2 rotation2 entry hw, hversion]
  · intro generation generation2 services services2
    rw [rotateCertificatesPlan_workerOnly h cp _ entry hw,
      rotateCertificatesPlan_workerOnly h cp _ entry hw]

/-- The worker of an RKE2 cluster gets the same plan for generation 3, for generation 4
of `etcd` and without a rotation spec: the restart of `rke2-agent`. -/
theorem rotateCertificatesPlan_worker_constant_witness :
    rke2Helpers.isOnlyWorker workerNode = true ∧
    rotateCertificatesPlan rke2Helpers staleControlPlane (some ⟨3, []⟩) workerNode =
      rotateCertificatesPlan rke2Helpers staleControlPlane (some ⟨4, ["etcd"]⟩) workerNode ∧
    rotateCertificatesPlan rke2Helpers staleControlPlane none workerNode =
      some ⟨[], [⟨"restart", "systemctl", ["restart", "rke2-agent"]⟩]⟩ := by
  obtain ⟨h1, h2, -⟩ :=
    rotateCertificatesPlan_worker_constant rke2Helpers staleControlPlane staleControlPlane
      (some ⟨3, []⟩) (some ⟨4, ["etcd"]⟩) workerNode rfl (by decide)
  exact ⟨by decide, h1, h2⟩

/-! ## Different requests, different plans -/

/-- A decimal digit is read back from its character, which is not a minus sign. -/
theorem digitValue_digitChar : ∀ d, d < 10 →
    digitValue (Nat.digitChar d) = d ∧ Nat.digitChar d ≠ '-' := by
  decide

/-- The digits produced for a number read back as that number, in front of the digits
already there. -/
theorem decimalValue_toDigitsCore (fuel n : Nat) (ds : List Char) (hfuel : n < fuel) :
    decimalValue (Nat.toDigitsCore 10 fuel n ds) = n * 10 ^ ds.length + decimalValue ds := by
  induction fuel generalizing n ds with
  | zero => omega
  | succ fuel ih =>
    have hd : digitValue (Nat.digitChar (n % 10)) = n % 10 :=
      (digitValue_digitChar (n % 10) (Nat.mod_lt n (by decide))).1
    have hn : n = 10 * (n / 10) + n % 10 := (Nat.div_add_mod n 10).symm
    simp only [Nat.toDigitsCore]
    split
    · rename_i hsmall
      simp only [decimalValue, hd]
      have : n % 10 = n := by omega
      rw [this]
    · rename_i hbig
      have hlt : n / 10 < fuel := by omega
      rw [ih (n / 10) _ hlt]
      simp only [decimalValue, hd, List.length_cons]
      conv_rhs => rw [hn]
      ring

/-- The decimal digits of a number read back as that number. -/
theorem decimalValue_toDigits (n : Nat) : decimalValue (Nat.toDigits 10 n) = n := by
  unfold Nat.toDigits
  rw [decimalValue_toDigitsCore (n + 1) n [] (Nat.lt_succ_self n)]
  simp [decimalValue]

/-- No decimal digit of a number is a minus sign. -/
theorem toDigitsCore_no_minus (fuel n : Nat) (ds : List Char) (hds : ∀ ch ∈ ds, ch ≠ '-') :
    ∀ ch ∈ Nat.toDigitsCore 10 fuel n ds, ch ≠ '-' := by
  induction fuel generalizing n ds with
  | zero => simpa [Nat.toDigitsCore] using hds
  | succ fuel ih =>
    have hcons : ∀ ch ∈ Nat.digitChar (n % 10) :: ds, ch ≠ '-' := by
      intro ch hch
      rcases List.mem_cons.mp hch with rfl | hch
      · exact (digitValue_digitChar (n % 10) (Nat.mod_lt n (by decide))).2
      · exact hds ch hch
    simp only [Nat.toDigitsCore]
    split
    · exact hcons
    · exact ih (n / 10) _ hcons

/-- Different generations are printed differently. -/
theorem FormatInt_injective (a b : Int) (hab : FormatInt a 10 = FormatInt b 10) : a = b := by
  have hdata := congrArg String.data hab
  have hminus : ∀ (n m : Nat), '-' :: Nat.toDigits 10 n ≠ Nat.toDigits 10 m := by
    intro n m heq
    exact toDigitsCore_no_minus (m + 1) m [] (by simp) '-' (by
      unfold Nat.toDigits at heq
      rw [← heq]
      simp) rfl
  unfold FormatInt at hdata
  by_cases ha : a < 0 <;> by_cases hb : b < 0
  · simp only [ha, hb, if_true, String.data_append, List.asString] at hdata
    have hd : Nat.toDigits 10 a.natAbs = Nat.toDigits 10 b.natAbs := by simpa using hdata
    have := congrArg decimalValue hd
    rw [decimalValue_toDigits, decimalValue_toDigits] at this
    omega
  · simp only [ha, hb, if_true, if_false, String.data_append, List.asString] at hdata
    exact absurd (by simpa using hdata) (hminus a.natAbs b.toNat)
  · simp only [ha, hb, if_true, if_false, String.data_append, List.asString] at hdata
    exact absurd (by simpa using hdata.symm) (hminus b.natAbs a.toNat)
  · simp only [ha, hb, if_false, List.asString] at hdata
    have := congrArg decimalValue hdata
    rw [decimalValue_toDigits, decimalValue_toDigits] at this
    omega

/-- The flag list determines the services. -/
theorem serviceFlags_injective (services services2 : List String)
    (hflags : (services.flatMap fun service => ["-s", service]) =
      services2.flatMap fun service => ["-s", service]) : services = services2 := by
  induction services generalizing services2 with
  | nil =>
    cases services2 with
    | nil => rfl
    | cons b rest2 => simp at hflags
  | cons a rest ih =>
    cases services2 with
    | nil => simp at hflags
    | cons b rest2 =>
      simp only [List.flatMap_cons, List.cons_append, List.nil_append, List.cons.injEq,
        true_and] at hflags
      rw [hflags.1, ih rest2 hflags.2]

/-- C19: for a fixed Kubernetes version and a node that is not worker-only the plan is
injective in the rotation request: two rotation specs with different generations, or
with different lists of services, give plans whose first instructions have different
arguments, hence different plans; the decimal rendering of the generation is
injective and the `-s` flags determine the list of services.  A new generation always
gives a plan different from the previous one. -/
theorem rotateCertificatesPlan_injective (h : Helpers) (controlPlane : RKEControlPlane)
    (rotation rotation2 : RotateCertificates) (entry : planEntry)
    (hw : h.isOnlyWorker entry = false) :
    ∃ nodePlan nodePlan2 first first2 rest rest2,
      rotateCertificatesPlan h controlPlane (some rotation) entry = some nodePlan ∧
      rotateCertificatesPlan h controlPlane (some rotation2) entry = some nodePlan2 ∧
      nodePlan.Instructions = first :: rest ∧
      nodePlan2.Instructions = first2 :: rest2 ∧
      (first.Args = first2.Args → rotation = rotation2) ∧
      (rotation.Generation ≠ rotation2.Generation ∨ rotation.Services ≠ rotation2.Services →
        first.Args ≠ first2.Args ∧ nodePlan ≠ nodePlan2) ∧
      (∀ a b : Int, FormatInt a 10 = FormatInt b 10 → a = b) := by
  have hinj : ["-xe",
      "/var/lib/rancher/" ++ h.GetRuntime controlPlane.Spec.KubernetesVersion ++
        "/certificate_rotation/bin/rotate.sh",
      h.GetRuntime controlPlane.Spec.KubernetesVersion,
      FormatInt rotation.Generation 10] ++
        rotation.Services.flatMap (fun service => ["-s", service]) =
      ["-xe",
      "/var/lib/rancher/" ++ h.GetRuntime controlPlane.Spec.KubernetesVersion ++
        "/certificate_rotation/bin/rotate.sh",
      h.GetRuntime controlPlane.Spec.KubernetesVersion,
      FormatInt rotation2.Generation 10] ++
        rotation2.Services.flatMap (fun service => ["-s", service]) →
      rotation = rotation2 := by
    intro hargs
    simp only [List.cons_append, List.nil_append, List.cons.injEq, true_and] at hargs
    obtain ⟨generation, services⟩ := rotation
    obtain ⟨generation2, services2⟩ := rotation2
    have hg : generation = generation2 := FormatInt_injective _ _ hargs.1
    have hs : services = services2 := serviceFlags_injective _ _ hargs.2
    rw [hg, hs]
  refine ⟨_, _, _, _, _, _, rotateCertificatesPlan_server h controlPlane rotation entry hw,
    rotateCertificatesPlan_server h controlPlane rotation2 entry hw, rfl, rfl, hinj, ?_,
    FormatInt_injective⟩
  intro hdiff
  have hargs : ¬ (["-xe",
      "/var/lib/rancher/" ++ h.GetRuntime controlPlane.Spec.KubernetesVersion ++
        "/certificate_rotation/bin/rotate.sh",
      h.GetRuntime controlPlane.Spec.KubernetesVersion,
      FormatInt rotation.Generation 10] ++
        rotation.Services.flatMap (fun service => ["-s", service]) =
      ["-xe",
      "/var/lib/rancher/" ++ h.GetRuntime controlPlane.Spec.KubernetesVersion ++
        "/certificate_rotation/bin/rotate.sh",
      h.GetRuntime controlPlane.Spec.KubernetesVersion,
      FormatInt rotation2.Generation 10] ++
        rotation2.Services.flatMap (fun service => ["-s", service])) := by
    intro heq
    have := hinj heq
    rcases hdiff with hg | hs
    · exact hg (by rw [this])
    · exact hs (by rw [this])
  refine ⟨hargs, ?_⟩
  intro hplans
  apply hargs
  have := congrArg (fun nodePlan : NodePlan => nodePlan.Instructions.map fun i => i.Args) hplans
  simpa using this

/-- The plans of the control-plane node of an RKE2 cluster for generation 3 and for
generation 4 differ in the arguments of the script invocation. -/
theorem rotateCertificatesPlan_injective_witness :
    rke2Helpers.isOnlyWorker serverNode = false ∧
    rotateCertificatesPlan rke2Helpers staleControlPlane (some ⟨3, []⟩) serverNode ≠
      rotateCertificatesPlan rke2Helpers staleControlPlane (some ⟨4, []⟩) serverNode ∧
    rotateCertificatesPlan rke2Helpers staleControlPlane (some ⟨4, ["etcd"]⟩) serverNode ≠
      rotateCertificatesPlan rke2Helpers staleControlPlane (some ⟨4, []⟩) serverNode := by
  refine ⟨by decide, ?_, ?_⟩
  · obtain ⟨nodePlan, nodePlan2, _, _, _, _, h1, h2, -, -, -, h6, -⟩ :=
      rotateCertificatesPlan_injective rke2Helpers staleControlPlane ⟨3, []⟩ ⟨4, []⟩ serverNode
        (by decide)
    rw [h1, h2]
    intro heq
    exact (h6 (Or.inl (by decide))).2 (Option.some.inj heq)
  · obtain ⟨nodePlan, nodePlan2, _, _, _, _, h1, h2, -, -, -, h6, -⟩ :=
      rotateCertificatesPlan_injective rke2Helpers staleControlPlane ⟨4, ["etcd"]⟩ ⟨4, []⟩
        serverNode (by decide)
    rw [h1, h2]
    intro heq
    exact (h6 (Or.inr (by decide))).2 (Option.some.inj heq)

/-! ## The rotation command of a run -/

/-- A generation in decimal is not the empty string. -/
theorem FormatInt_ne_empty (g : Int) : FormatInt g 10 ≠ "" := by
  intro hempty
  exact (FormatInt_plain g).1 (by rw [hempty])

/-- A missing marker reads as the empty string. -/
theorem currentGeneration_missing (fs : FileSystem) (runtime : String)
    (hmissing : fs (generationFile runtime) = none) : currentGeneration fs runtime = "" := by
  simp only [currentGeneration, hmissing]
  decide

/-- The rotation commands of a run: one, made of the expansion of the runtime,
`certificate`, `rotate` and the expansion of the remaining parameters, when the marker
read differs from the target, and none otherwise. -/
theorem runRotateScript_rotations (pathnames : Pathnames) (errexit rotateOk : Bool)
    (fs : FileSystem) (runtime target : String) (rest : List String) :
    (runRotateScript pathnames errexit rotateOk fs (runtime :: target :: rest)).rotations =
      if currentGeneration fs runtime ≠ target then
        [expandUnquoted (pathnames 77) runtime ++ ["certificate", "rotate"] ++
          rest.flatMap (expandUnquoted (pathnames 77))]
      else [] := by
  by_cases hcur : currentGeneration fs runtime = target
  · rw [runRotateScript_current pathnames errexit rotateOk fs runtime target rest hcur]
    simp [hcur]
  · rw [runRotateScript_stale pathnames errexit rotateOk fs runtime target rest hcur]
    split <;> simp [hcur]

/-- Parameters that are non-empty words without blank, tab, newline and pattern
character pass through an unquoted expansion unchanged, whatever files the node has. -/
theorem flatMap_expandUnquoted_plain (matching : String → List String) (rest : List String)
    (hrest : ∀ w ∈ rest, w.data ≠ [] ∧ (∀ ch ∈ w.data, isIFS ch = false) ∧
      ∀ ch ∈ w.data, isPatternChar ch = false) :
    rest.flatMap (expandUnquoted matching) = rest := by
  induction rest with
  | nil => rfl
  | cons w rest ih =>
    have hw := hrest w (by simp)
    rw [List.flatMap_cons, expandUnquoted_plain matching w hw.1 hw.2.1 hw.2.2,
      ih (fun x hx => hrest x (by simp [hx]))]
    rfl

/-- C15: a run of the script starts the rotation command if and only if the marker
value read, the empty string when the marker is missing, differs from the target
generation; the generation the plan passes is never the empty string, so a run with a
missing marker starts the command for every generation; parameters after the first
two that are non-empty words without blank, tab, newline and pattern character are
forwarded unchanged and in order, whatever files the node has.  At the failing inputs
the parameters are not forwarded unchanged: for a service name with a blank the plan
passes `-s`, `kube apiserver` and the script starts
`rke2 certificate rotate -s kube apiserver`, the name arriving as two arguments; for
the service name `*` in a directory holding `a.txt` and `b.txt` the script starts
`rke2 certificate rotate -s a.txt b.txt`. -/
theorem runRotateScript_forwarding :
    (∀ pathnames errexit rotateOk fs runtime target rest,
      ((runRotateScript pathnames errexit rotateOk fs
          (runtime :: target :: rest)).rotations ≠ [] ↔
        currentGeneration fs runtime ≠ target) ∧
      (runRotateScript pathnames errexit rotateOk fs
        (runtime :: target :: rest)).rotations.length ≤ 1) ∧
    (∀ pathnames errexit rotateOk (fs : FileSystem) runtime (g : Int) rest,
      fs (generationFile runtime) = none →
        currentGeneration fs runtime = "" ∧ FormatInt g 10 ≠ "" ∧
        (runRotateScript pathnames errexit rotateOk fs
          (runtime :: FormatInt g 10 :: rest)).rotations ≠ []) ∧
    (∀ pathnames errexit rotateOk fs runtime target rest,
      currentGeneration fs runtime ≠ target →
      (∀ w ∈ rest, w.data ≠ [] ∧ (∀ ch ∈ w.data, isIFS ch = false) ∧
        ∀ ch ∈ w.data, isPatternChar ch = false) →
        (runRotateScript pathnames errexit rotateOk fs (runtime :: target :: rest)).rotations =
          [expandUnquoted (pathnames 77) runtime ++ ["certificate", "rotate"] ++ rest]) ∧
    (∃ nodePlan first others run,
      rotateCertificatesPlan rke2Helpers blankServiceControlPlane
        blankServiceControlPlane.Spec.RotateCertificates serverNode = some nodePlan ∧
      nodePlan.Instructions = first :: others ∧
      first.Args = ["-xe", "/var/lib/rancher/rke2/certificate_rotation/bin/rotate.sh", "rke2",
        "4", "-s", "kube apiserver"] ∧
      runShInstruction noMatches true noFiles first.Args = some run ∧
      run.rotations = [["rke2", "certificate", "rotate", "-s", "kube", "apiserver"]] ∧
      run.rotations ≠ [["rke2", "certificate", "rotate"] ++ first.Args.drop 4]) ∧
    (∃ nodePlan first others run,
      rotateCertificatesPlan rke2Helpers starServiceControlPlane
        starServiceControlPlane.Spec.RotateCertificates serverNode = some nodePlan ∧
      nodePlan.Instructions = first :: others ∧
      first.Args = ["-xe", "/var/lib/rancher/rke2/certificate_rotation/bin/rotate.sh", "rke2",
        "4", "-s", "*"] ∧
      runShInstruction twoTextFiles true noFiles first.Args = some run ∧
      run.rotations = [["rke2", "certificate", "rotate", "-s", "a.txt", "b.txt"]] ∧
      run.rotations ≠ [["rke2", "certificate", "rotate"] ++ first.Args.drop 4]) := by
  refine ⟨?_, ?_, ?_, ?_, ?_⟩
  · intro pathnames errexit rotateOk fs runtime target rest
    rw [runRotateScript_rotations]
    by_cases hcur : currentGeneration fs runtime = target <;> simp [hcur]
  · intro pathnames errexit rotateOk fs runtime g rest hmissing
    have hcur := currentGeneration_missing fs runtime hmissing
    have hne := FormatInt_ne_empty g
    refine ⟨hcur, hne, ?_⟩
    rw [runRotateScript_rotations, hcur, if_pos (Ne.symm hne)]
    simp
  · intro pathnames errexit rotateOk fs runtime target rest hcur hrest
    rw [runRotateScript_rotations, if_pos hcur,
      flatMap_expandUnquoted_plain (pathnames 77) rest hrest]
  · exact ⟨_, _, _, _, rotateCertificatesPlan_server rke2Helpers blankServiceControlPlane
      ⟨4, ["kube apiserver"]⟩ serverNode (by decide), rfl, by decide, rfl, by decide, by decide⟩
  · exact ⟨_, _, _, _, rotateCertificatesPlan_server rke2Helpers starServiceControlPlane
      ⟨4, ["*"]⟩ serverNode (by decide), rfl, by decide, rfl, by decide, by decide⟩

end Planner
